import Mathlib

/-!
# Semantic analyzer (`Analyzer/Analyzer.cpp`)

A shallow embedding of the functions of `Analyzer.cpp`: type unification for binary operators,
constant cast folding, deep copies, predicate classification, simple-predicate normalization,
target-list rewriting, the GROUP BY check, and the range-table bookkeeping.  The headers
(`Analyzer.h`, `sqltypes.h`, `sqldefs.h`) and the catalog are not part of the sources at hand,
so the enumerations, the `IS_*` classification macros and the class members are modelled from
the specification's data model; every function body below is transcribed from `Analyzer.cpp`.

Conventions.
* In the type functions a failed `assert` is the outcome `AnalyzerError.assertion` and
  `throw std::runtime_error(msg)` is `AnalyzerError.runtime_error msg`.  The cast functions
  mutate the constant they are called on, so their outcomes (`CastResult`, `AddCastResult`)
  carry the state of that constant, also when control reaches `assert(false)`.  The functions
  over expression trees stop with an `ExprFault`.
* Machine integers are mathematical integers kept inside their width by the explicit
  narrowing functions `toInt16`, `toInt32`, `toInt64`: every sum and difference of the C++
  `int` fields `dimension` and `scale` (`5 + scale`, `dimension - scale`) is wrapped to 32
  bits, and so is every arithmetic step on a payload.
* A list of pointers to nodes (`std::list<const Expr*>`) is a list of expressions, so that a
  node is identified by its occurrence in the list.
-/

namespace Analyzer

/-! ## Type descriptors -/

/-- Modelled from the spec: the enumeration `SQLTypes` of `sqltypes.h` is missing; these are
the kinds the specification's data model lists for `TypeInfo.kind`. -/
inductive SQLTypes where
  | kSMALLINT | kINT | kBIGINT | kFLOAT | kDOUBLE | kNUMERIC | kDECIMAL
  | kCHAR | kVARCHAR | kTEXT | kBOOLEAN | kDATE | kTIME | kTIMESTAMP
  deriving DecidableEq, Repr

/-- Modelled from the spec: the macro `IS_NUMBER` of `sqltypes.h` is missing; the numeric kinds
are SMALLINT, INT, BIGINT, FLOAT, DOUBLE, NUMERIC and DECIMAL. -/
def IS_NUMBER : SQLTypes → Bool
  | .kSMALLINT | .kINT | .kBIGINT | .kFLOAT | .kDOUBLE | .kNUMERIC | .kDECIMAL => true
  | _ => false

/-- Modelled from the spec: the macro `IS_STRING` of `sqltypes.h` is missing; the string kinds
are CHAR, VARCHAR and TEXT. -/
def IS_STRING : SQLTypes → Bool
  | .kCHAR | .kVARCHAR | .kTEXT => true
  | _ => false

/-- Modelled from the spec: the struct `SQLTypeInfo` of `sqltypes.h` is missing; it has the
fields `type`, `dimension` and `scale`, and equality is field-wise. -/
structure SQLTypeInfo where
  type : SQLTypes
  dimension : Int
  scale : Int
  deriving DecidableEq, Repr

/-- Modelled from the spec: the enumeration `SQLOps` of `sqldefs.h` is missing; these are the
operators the specification names (comparison, logic, arithmetic, and the unary ones). -/
inductive SQLOps where
  | kEQ | kNE | kLT | kGT | kLE | kGE
  | kAND | kOR | kNOT
  | kMINUS | kPLUS | kMULTIPLY | kDIVIDE | kMODULO
  | kUMINUS | kISNULL | kEXISTS | kCAST
  deriving DecidableEq, Repr

/-- Modelled from the spec: the macro `IS_COMPARISON` of `sqldefs.h` is missing; the comparison
operators are `=`, `<>`, `<`, `>`, `<=`, `>=`. -/
def IS_COMPARISON : SQLOps → Bool
  | .kEQ | .kNE | .kLT | .kGT | .kLE | .kGE => true
  | _ => false

/-- Modelled from the spec: the macro `IS_LOGIC` of `sqldefs.h` is missing; the logical
operators are `AND`, `OR` and `NOT`. -/
def IS_LOGIC : SQLOps → Bool
  | .kAND | .kOR | .kNOT => true
  | _ => false

/-- Modelled from the spec: the macro `IS_ARITHMETIC` of `sqldefs.h` is missing; the arithmetic
operators are `+`, `-`, `*`, `/`, `%`. -/
def IS_ARITHMETIC : SQLOps → Bool
  | .kMINUS | .kPLUS | .kMULTIPLY | .kDIVIDE | .kMODULO => true
  | _ => false

/-- The two ways a function of the analyzer stops without returning. -/
inductive AnalyzerError where
  | assertion
  | runtime_error (msg : String)
  deriving DecidableEq, Repr

deriving instance DecidableEq for Except

/-! ## `BinOper::common_numeric_type` and `BinOper::analyze_type_info` -/

/-- Two's-complement narrowing to 16 bits: the cast `(int16_t)x`. -/
def toInt16 (x : Int) : Int := (x + 2 ^ 15) % 2 ^ 16 - 2 ^ 15

/-- Two's-complement narrowing to 32 bits: the cast `(int32_t)x`, and what an `int` holds
after an arithmetic step. -/
def toInt32 (x : Int) : Int := (x + 2 ^ 31) % 2 ^ 32 - 2 ^ 31

/-- Two's-complement wrap to 64 bits: what an `int64_t` holds after an arithmetic step. -/
def toInt64 (x : Int) : Int := (x + 2 ^ 63) % 2 ^ 64 - 2 ^ 63

/-- The function `BinOper::common_numeric_type` (Analyzer.cpp, lines 168-326).
`dflt` is the value of a default-constructed `SQLTypeInfo` (the local `common_type` before any
field is assigned): its constructor lives in the missing header, so it is a parameter.  The
sums and differences are `int` arithmetic and wrap to 32 bits. -/
def common_numeric_type (dflt type1 type2 : SQLTypeInfo) : Except AnalyzerError SQLTypeInfo :=
  let common_type := dflt
  if !(IS_NUMBER type1.type && IS_NUMBER type2.type) then .error .assertion
  else if type1.type = type2.type then
    .ok { common_type with
          type := type1.type
          dimension := max type1.dimension type2.dimension
          scale := max type1.scale type2.scale }
  else
    match type1.type with
    | .kSMALLINT =>
      match type2.type with
      | .kINT => .ok { common_type with type := .kINT }
      | .kBIGINT => .ok { common_type with type := .kBIGINT }
      | .kFLOAT => .ok { common_type with type := .kFLOAT }
      | .kDOUBLE => .ok { common_type with type := .kDOUBLE }
      | .kNUMERIC | .kDECIMAL =>
        .ok { common_type with
              type := .kNUMERIC
              dimension := max (toInt32 (5 + type2.scale)) type2.dimension
              scale := type2.scale }
      | _ => .error .assertion
    | .kINT =>
      match type2.type with
      | .kSMALLINT => .ok { common_type with type := .kINT }
      | .kBIGINT => .ok { common_type with type := .kBIGINT }
      | .kFLOAT => .ok { common_type with type := .kFLOAT }
      | .kDOUBLE => .ok { common_type with type := .kDOUBLE }
      | .kNUMERIC | .kDECIMAL =>
        .ok { common_type with
              type := .kNUMERIC
              dimension := max (min 19 (toInt32 (10 + type2.scale))) type2.dimension
              scale := type2.scale }
      | _ => .error .assertion
    | .kBIGINT =>
      match type2.type with
      | .kSMALLINT => .ok { common_type with type := .kBIGINT }
      | .kINT => .ok { common_type with type := .kBIGINT }
      | .kFLOAT => .ok { common_type with type := .kDOUBLE }
      | .kDOUBLE => .ok { common_type with type := .kDOUBLE }
      | .kNUMERIC | .kDECIMAL =>
        .ok { common_type with
              type := .kNUMERIC
              dimension := 19
              scale := type2.scale }
      | _ => .error .assertion
    | .kFLOAT =>
      match type2.type with
      | .kSMALLINT => .ok { common_type with type := .kFLOAT }
      | .kINT => .ok { common_type with type := .kFLOAT }
      | .kBIGINT => .ok { common_type with type := .kDOUBLE }
      | .kDOUBLE => .ok { common_type with type := .kDOUBLE }
      | .kNUMERIC | .kDECIMAL => .ok { common_type with type := .kDOUBLE }
      | _ => .error .assertion
    | .kDOUBLE =>
      match type2.type with
      | .kSMALLINT | .kINT | .kBIGINT | .kFLOAT | .kNUMERIC | .kDECIMAL =>
        .ok { common_type with type := .kDOUBLE }
      | _ => .error .assertion
    | .kNUMERIC | .kDECIMAL =>
      match type2.type with
      | .kSMALLINT =>
        .ok { common_type with
              type := .kNUMERIC
              dimension := max (toInt32 (5 + type2.scale)) type2.dimension
              scale := type2.scale }
      | .kINT =>
        .ok { common_type with
              type := .kNUMERIC
              dimension := max (min 19 (toInt32 (10 + type2.scale))) type2.dimension
              scale := type2.scale }
      | .kBIGINT =>
        .ok { common_type with
              type := .kNUMERIC
              dimension := 19
              scale := type2.scale }
      | .kFLOAT => .ok { common_type with type := .kDOUBLE }
      | .kDOUBLE => .ok { common_type with type := .kDOUBLE }
      | .kNUMERIC | .kDECIMAL =>
        .ok { common_type with
              type := .kNUMERIC
              scale := max type1.scale type2.scale
              dimension :=
                toInt32
                  (max (toInt32 (type1.dimension - type1.scale))
                      (toInt32 (type2.dimension - type2.scale))
                    + max type1.scale type2.scale) }
      | _ => .error .assertion
    | _ => .error .assertion

/-- What `BinOper::analyze_type_info` hands back: its return value and the two out-parameters. -/
structure TypeAnalysis where
  result_type : SQLTypeInfo
  new_left_type : SQLTypeInfo
  new_right_type : SQLTypeInfo
  deriving DecidableEq, Repr

/-- The function `BinOper::analyze_type_info` (Analyzer.cpp, lines 129-166).  `dflt` is the
default-constructed `SQLTypeInfo` with which `result_type` and `common_type` start. -/
def analyze_type_info (dflt : SQLTypeInfo) (op : SQLOps) (left_type right_type : SQLTypeInfo) :
    Except AnalyzerError TypeAnalysis :=
  let result_type := dflt
  let new_left_type := left_type
  let new_right_type := right_type
  if IS_LOGIC op then
    if left_type.type ≠ .kBOOLEAN ∨ right_type.type ≠ .kBOOLEAN then
      .error (.runtime_error "non-boolean operands cannot be used in logic operations.")
    else
      .ok ⟨{ result_type with type := .kBOOLEAN }, new_left_type, new_right_type⟩
  else if IS_COMPARISON op then
    if (IS_STRING left_type.type && !IS_STRING right_type.type)
        || (!IS_STRING left_type.type && IS_STRING right_type.type) then
      .error (.runtime_error "cannot compare between string and non-string types.")
    else if (IS_NUMBER left_type.type && !IS_NUMBER right_type.type)
        || (!IS_NUMBER left_type.type && IS_NUMBER right_type.type) then
      .error (.runtime_error "cannot compare between numeric and non-numeric types.")
    else if IS_NUMBER left_type.type && IS_NUMBER right_type.type then
      match common_numeric_type dflt left_type right_type with
      | .error e => .error e
      | .ok common_type =>
        .ok ⟨{ result_type with type := .kBOOLEAN }, common_type, common_type⟩
    else
      .ok ⟨{ result_type with type := .kBOOLEAN }, new_left_type, new_right_type⟩
  else if IS_ARITHMETIC op then
    if !IS_NUMBER left_type.type || !IS_NUMBER right_type.type then
      .error (.runtime_error "non-numeric operands in arithmetic operations.")
    else
      match common_numeric_type dflt left_type right_type with
      | .error e => .error e
      | .ok common_type => .ok ⟨common_type, common_type, common_type⟩
  else
    .error (.runtime_error "invalid binary operator type.")

/-! ## Constants and expressions -/

/-- Floating-point values are kept as bit patterns; the conversions and the two arithmetic
steps the casts use are parameters of the model, which fixes nothing about IEEE arithmetic. -/
structure FloatOps where
  int_to_double : Int → Nat
  int_to_float : Int → Nat
  double_to_int16 : Nat → Int
  double_to_int32 : Nat → Int
  double_to_int64 : Nat → Int
  float_to_int16 : Nat → Int
  float_to_int32 : Nat → Int
  float_to_int64 : Nat → Int
  double_to_float : Nat → Nat
  float_to_double : Nat → Nat
  double_mul10 : Nat → Nat
  double_div10 : Nat → Nat
  float_mul10 : Nat → Nat
  float_div10 : Nat → Nat

/-- Modelled from the spec: the union `Datum` of `sqltypes.h` is missing.  Each member the
source reads or writes is a field of its own (the member in use is the one `type_info.type`
designates).  `pointerval` is the owned character buffer, byte by byte; `none` is a byte that
was allocated and never written. -/
structure Datum where
  boolval : Bool
  smallintval : Int
  intval : Int
  bigintval : Int
  floatval : Nat
  doubleval : Nat
  pointerval : List (Option Nat)
  deriving DecidableEq, Repr

/-- The data members of class `Constant` (with the `type_info` it inherits from `Expr`). -/
structure Constant where
  type_info : SQLTypeInfo
  is_null : Bool
  constval : Datum
  deriving DecidableEq, Repr

/-- Modelled from the spec: `SQLQualifier` of `sqldefs.h` is missing (ANY / ALL / NONE). -/
inductive SQLQualifier where
  | kONE | kANY | kALL
  deriving DecidableEq, Repr

/-- Modelled from the spec: `SQLAgg` of `sqldefs.h` is missing (COUNT/SUM/AVG/MIN/MAX). -/
inductive SQLAgg where
  | kAVG | kMIN | kMAX | kSUM | kCOUNT
  deriving DecidableEq, Repr

/-- Modelled from the spec: the class hierarchy under `Expr` is declared in the missing
`Analyzer.h`; the variants and their fields are those of the specification's data model and of
the constructor calls in `Analyzer.cpp`.  The constructors of `InValues` and `LikeExpr` are
called without a type (`new InValues(arg, value_list)`, `new LikeExpr(arg, like_expr,
escape_expr)`), so these two variants have no type field of their own.  The parse tree owned by
a `Subquery` is not inspected by any function of `Analyzer.cpp` and is left out. -/
inductive Expr where
  | ColumnVar (type_info : SQLTypeInfo) (table_id column_id rte_idx : Int)
  | Var (type_info : SQLTypeInfo) (table_id column_id : Int) (is_inner : Bool) (varno : Int)
  | Constant (c : Constant)
  | UOper (type_info : SQLTypeInfo) (optype : SQLOps) (operand : Expr)
  | BinOper (type_info : SQLTypeInfo) (optype : SQLOps) (qualifier : SQLQualifier)
      (left_operand right_operand : Expr)
  | Subquery (type_info : SQLTypeInfo)
  | InValues (arg : Expr) (value_list : List Expr)
  | LikeExpr (arg like_expr : Expr) (escape_expr : Option Expr)
  | AggExpr (type_info : SQLTypeInfo) (aggtype : SQLAgg) (arg : Expr) (is_distinct : Bool)
      (agg_idx : Int)

/-- The accessor `Expr::get_type_info`.  Modelled from the spec: the type that the constructors
of `InValues` and `LikeExpr` assign is fixed in the missing header; the specification gives a
predicate the kind BOOLEAN. -/
def Expr.get_type_info : Expr → SQLTypeInfo
  | .ColumnVar t _ _ _ => t
  | .Var t _ _ _ _ => t
  | .Constant c => c.type_info
  | .UOper t _ _ => t
  | .BinOper t _ _ _ _ => t
  | .Subquery t => t
  | .InValues _ _ => ⟨.kBOOLEAN, 0, 0⟩
  | .LikeExpr _ _ _ => ⟨.kBOOLEAN, 0, 0⟩
  | .AggExpr t _ _ _ _ => t

/-- How a member function of `Constant` that mutates `*this` ends: it returns, leaving the
constant in state `self`; or control reaches `assert(false)` with the constant in state `self`;
or it reads past a character buffer that holds no terminator. -/
inductive CastResult where
  | returned (self : Constant)
  | assert_false (self : Constant)
  | undefined_read (self : Constant)
  deriving DecidableEq, Repr

/-- One step `constval.bigintval *= 10` on an `int64_t`. -/
def mul10 (b : Int) : Int := toInt64 (b * 10)

/-- One step `constval.bigintval /= 10`: C++ integer division truncates toward zero. -/
def div10 (b : Int) : Int := Int.tdiv b 10

/-- The loop `for (int i = 0; i < n; i++) x = step(x);` for an `int` bound `n`: it runs
`n` times when `n` is positive and not at all otherwise. -/
def for_loop {α : Type} (n : Int) (step : α → α) (x : α) : α := Nat.iterate step n.toNat x

/-- The function `Constant::cast_number` (Analyzer.cpp, lines 337-509).  Each inner `switch`
is a `match` on the target kind; a branch that ends in `break` reaches the final
`type_info = new_type_info` and returns, a NUMERIC/DECIMAL target branch has no `break` and
runs on into `default: assert(false)`. -/
def Constant.cast_number (fc : FloatOps) (self : Constant) (new_type_info : SQLTypeInfo) :
    CastResult :=
  let constval := self.constval
  let done (d : Datum) : CastResult :=
    .returned { self with constval := d, type_info := new_type_info }
  let falls_into_default (d : Datum) : CastResult :=
    .assert_false { self with constval := d }
  match self.type_info.type with
  | .kINT =>
    match new_type_info.type with
    | .kINT => done constval
    | .kSMALLINT => done { constval with smallintval := toInt16 constval.intval }
    | .kBIGINT => done { constval with bigintval := toInt64 constval.intval }
    | .kDOUBLE => done { constval with doubleval := fc.int_to_double constval.intval }
    | .kFLOAT => done { constval with floatval := fc.int_to_float constval.intval }
    | .kNUMERIC | .kDECIMAL =>
      falls_into_default
        { constval with
          bigintval := for_loop new_type_info.scale mul10 (toInt64 constval.intval) }
    | _ => falls_into_default constval
  | .kSMALLINT =>
    match new_type_info.type with
    | .kINT => done { constval with intval := toInt32 constval.smallintval }
    | .kSMALLINT => done constval
    | .kBIGINT => done { constval with bigintval := toInt64 constval.smallintval }
    | .kDOUBLE => done { constval with doubleval := fc.int_to_double constval.smallintval }
    | .kFLOAT => done { constval with floatval := fc.int_to_float constval.smallintval }
    | .kNUMERIC | .kDECIMAL =>
      falls_into_default
        { constval with
          bigintval := for_loop new_type_info.scale mul10 (toInt64 constval.smallintval) }
    | _ => falls_into_default constval
  | .kBIGINT =>
    match new_type_info.type with
    | .kINT => done { constval with intval := toInt32 constval.bigintval }
    | .kSMALLINT => done { constval with smallintval := toInt16 constval.bigintval }
    | .kBIGINT => done constval
    | .kDOUBLE => done { constval with doubleval := fc.int_to_double constval.bigintval }
    | .kFLOAT => done { constval with floatval := fc.int_to_float constval.bigintval }
    | .kNUMERIC | .kDECIMAL =>
      falls_into_default
        { constval with bigintval := for_loop new_type_info.scale mul10 constval.bigintval }
    | _ => falls_into_default constval
  | .kDOUBLE =>
    match new_type_info.type with
    | .kINT => done { constval with intval := fc.double_to_int32 constval.doubleval }
    | .kSMALLINT => done { constval with smallintval := fc.double_to_int16 constval.doubleval }
    | .kBIGINT => done { constval with bigintval := fc.double_to_int64 constval.doubleval }
    | .kDOUBLE => done constval
    | .kFLOAT => done { constval with floatval := fc.double_to_float constval.doubleval }
    | .kNUMERIC | .kDECIMAL =>
      let doubleval := for_loop new_type_info.scale fc.double_mul10 constval.doubleval
      falls_into_default
        { constval with doubleval := doubleval, bigintval := fc.double_to_int64 doubleval }
    | _ => falls_into_default constval
  | .kFLOAT =>
    match new_type_info.type with
    | .kINT => done { constval with intval := fc.float_to_int32 constval.floatval }
    | .kSMALLINT => done { constval with smallintval := fc.float_to_int16 constval.floatval }
    | .kBIGINT => done { constval with bigintval := fc.float_to_int64 constval.floatval }
    | .kDOUBLE => done { constval with doubleval := fc.float_to_double constval.floatval }
    | .kFLOAT => done constval
    | .kNUMERIC | .kDECIMAL =>
      let floatval := for_loop new_type_info.scale fc.float_mul10 constval.floatval
      falls_into_default
        { constval with floatval := floatval, bigintval := fc.float_to_int64 floatval }
    | _ => falls_into_default constval
  | .kNUMERIC | .kDECIMAL =>
    match new_type_info.type with
    | .kINT =>
      let bigintval := for_loop self.type_info.scale div10 constval.bigintval
      done { constval with bigintval := bigintval, intval := toInt32 bigintval }
    | .kSMALLINT =>
      let bigintval := for_loop self.type_info.scale div10 constval.bigintval
      done { constval with bigintval := bigintval, smallintval := toInt16 bigintval }
    | .kBIGINT =>
      done { constval with bigintval := for_loop self.type_info.scale div10 constval.bigintval }
    | .kDOUBLE =>
      done { constval with
             doubleval :=
               for_loop self.type_info.scale fc.double_div10
                 (fc.int_to_double constval.bigintval) }
    | .kFLOAT =>
      done { constval with
             floatval :=
               for_loop self.type_info.scale fc.float_div10
                 (fc.int_to_float constval.bigintval) }
    | .kNUMERIC | .kDECIMAL =>
      if new_type_info.scale > self.type_info.scale then
        falls_into_default
          { constval with
            bigintval :=
              for_loop (toInt32 (new_type_info.scale - self.type_info.scale)) mul10
                constval.bigintval }
      else if new_type_info.scale < self.type_info.scale then
        falls_into_default
          { constval with
            bigintval :=
              for_loop (toInt32 (self.type_info.scale - new_type_info.scale)) div10
                constval.bigintval }
      else falls_into_default constval
    | _ => falls_into_default constval
  | _ => falls_into_default constval

/-- The library function `strlen` on a character buffer: the number of bytes before the first
zero byte; `none` when the scan meets a byte that was never written or the end of the buffer
first. -/
def c_strlen : List (Option Nat) → Option Nat
  | [] => none
  | none :: _ => none
  | some 0 :: _ => some 0
  | some (_ + 1) :: rest => (c_strlen rest).map (· + 1)

/-- The conversion of an `int` to `size_t` that the comparison
`new_type_info.dimension < strlen(str)` applies to its left operand. -/
def toSizeT (x : Int) : Nat := (x % 2 ^ 64).toNat

/-- The function `Constant::cast_string` (Analyzer.cpp, lines 511-523).  `new char[n + 1]` is a
buffer of `n + 1` unwritten bytes, of which `strncpy` writes the first `n`. -/
def Constant.cast_string (self : Constant) (new_type_info : SQLTypeInfo) : CastResult :=
  let str := self.constval.pointerval
  if new_type_info.type = .kTEXT then
    .returned { self with type_info := new_type_info }
  else
    match c_strlen str with
    | none => .undefined_read self
    | some len =>
      if toSizeT new_type_info.dimension < len then
        let new_str := str.take (toSizeT new_type_info.dimension) ++ [none]
        .returned { self with
                    constval := { self.constval with pointerval := new_str }
                    type_info := new_type_info }
      else
        .returned { self with type_info := new_type_info }

/-- How `Constant::add_cast` ends: it returns the expression `result`, leaving the constant it
was called on in state `self`; or it stops the way `CastResult` describes. -/
inductive AddCastResult where
  | returned (self : Constant) (result : Expr)
  | assert_false (self : Constant)
  | undefined_read (self : Constant)

/-- The function `Expr::add_cast` (Analyzer.cpp, lines 328-335) on a `Constant` receiver. -/
def Constant.expr_add_cast (self : Constant) (new_type_info : SQLTypeInfo) : AddCastResult :=
  if new_type_info = self.type_info then .returned self (.Constant self)
  else .returned self (.UOper new_type_info .kCAST (.Constant self))

/-- The function `Constant::add_cast` (Analyzer.cpp, lines 525-540). -/
def Constant.add_cast (fc : FloatOps) (self : Constant) (new_type_info : SQLTypeInfo) :
    AddCastResult :=
  if self.is_null then
    let self := { self with type_info := new_type_info }
    .returned self (.Constant self)
  else if IS_NUMBER new_type_info.type && IS_NUMBER self.type_info.type then
    match self.cast_number fc new_type_info with
    | .returned self => .returned self (.Constant self)
    | .assert_false self => .assert_false self
    | .undefined_read self => .undefined_read self
  else if IS_STRING new_type_info.type && IS_STRING self.type_info.type then
    match self.cast_string new_type_info with
    | .returned self => .returned self (.Constant self)
    | .assert_false self => .assert_false self
    | .undefined_read self => .undefined_read self
  else
    self.expr_add_cast new_type_info

/-! ## The promotion lattice as the specification words it -/

/-- The integer kinds SMALLINT, INT, BIGINT. -/
def is_integer_kind : SQLTypes → Bool
  | .kSMALLINT | .kINT | .kBIGINT => true
  | _ => false

/-- The fixed-point kinds NUMERIC and DECIMAL. -/
def is_fixed_kind : SQLTypes → Bool
  | .kNUMERIC | .kDECIMAL => true
  | _ => false

/-- The exact numeric kinds: the integers and the fixed-point kinds. -/
def is_exact_kind (k : SQLTypes) : Bool := is_integer_kind k || is_fixed_kind k

/-- The order SMALLINT < INT < BIGINT of the integer kinds. -/
def integer_rank : SQLTypes → Nat
  | .kSMALLINT => 1
  | .kINT => 2
  | .kBIGINT => 3
  | _ => 0

/-- The promotion table of the specification, read off its sentences and independent of the
code: same kind is preserved; two integers give the wider; anything with DOUBLE gives DOUBLE;
FLOAT with SMALLINT or INT gives FLOAT, and with BIGINT, NUMERIC or DECIMAL it gives DOUBLE;
an integer with NUMERIC/DECIMAL, and NUMERIC with DECIMAL, give NUMERIC. -/
def promotion_table (k1 k2 : SQLTypes) : SQLTypes :=
  if k1 = k2 then k1
  else if is_integer_kind k1 && is_integer_kind k2 then
    (if integer_rank k1 < integer_rank k2 then k2 else k1)
  else if k1 = .kDOUBLE || k2 = .kDOUBLE then .kDOUBLE
  else if k1 = .kFLOAT || k2 = .kFLOAT then
    (if k1 = .kBIGINT || k2 = .kBIGINT || is_fixed_kind k1 || is_fixed_kind k2 then .kDOUBLE
     else .kFLOAT)
  else .kNUMERIC

/-- The number of integer digits a type is counted with: 5, 10 and 19 for SMALLINT, INT and
BIGINT, and `dimension - scale` otherwise. -/
def integer_digits (t : SQLTypeInfo) : Int :=
  match t.type with
  | .kSMALLINT => 5
  | .kINT => 10
  | .kBIGINT => 19
  | _ => t.dimension - t.scale

/-- The number of fraction digits a type is counted with: 0 for the integer kinds and `scale`
otherwise. -/
def fraction_digits (t : SQLTypeInfo) : Int :=
  if is_integer_kind t.type then 0 else t.scale

/-- The descriptor invariant `0 ≤ scale ≤ dimension ≤ 19`, required of NUMERIC/DECIMAL only. -/
def descriptor_ok (t : SQLTypeInfo) : Prop :=
  is_fixed_kind t.type = true → 0 ≤ t.scale ∧ t.scale ≤ t.dimension ∧ t.dimension ≤ 19

/-- Type `r` holds every value of type `x` without loss: no fewer fraction digits and no fewer
integer digits. -/
def contains_losslessly (r x : SQLTypeInfo) : Prop :=
  fraction_digits x ≤ fraction_digits r ∧ integer_digits x ≤ integer_digits r

/-! ## Concrete values for worked examples -/

/-- A concrete `FloatOps` in which every floating-point value is the zero bit pattern; it
serves where an instance has to be named and no floating-point member is read. -/
def FloatOps.zero : FloatOps :=
  { int_to_double := fun _ => 0, int_to_float := fun _ => 0,
    double_to_int16 := fun _ => 0, double_to_int32 := fun _ => 0, double_to_int64 := fun _ => 0,
    float_to_int16 := fun _ => 0, float_to_int32 := fun _ => 0, float_to_int64 := fun _ => 0,
    double_to_float := fun _ => 0, float_to_double := fun _ => 0,
    double_mul10 := fun _ => 0, double_div10 := fun _ => 0,
    float_mul10 := fun _ => 0, float_div10 := fun _ => 0 }

/-- A datum whose integer members hold `v` and whose other members are zero or empty. -/
def Datum.of_int (v : Int) : Datum :=
  { boolval := false, smallintval := v, intval := v, bigintval := v,
    floatval := 0, doubleval := 0, pointerval := [] }

/-! ## Character buffers -/

/-- The bytes of the C string held in a character buffer: those before the first zero byte;
`none` when the scan meets a byte that was never written, or the end of the buffer, first. -/
def c_string : List (Option Nat) → Option (List Nat)
  | [] => none
  | none :: _ => none
  | some 0 :: _ => some []
  | some (b + 1) :: rest => (c_string rest).map (fun bytes => (b + 1) :: bytes)

/-- A fresh buffer holding the bytes `bytes` followed by the terminator: what
`new char[strlen(str) + 1]` holds after `strcpy(new_str, str)`. -/
def c_buffer (bytes : List Nat) : List (Option Nat) := bytes.map some ++ [some 0]

/-- A datum whose `pointerval` is a buffer holding the string `bytes` and its terminator; the
other members are zero. -/
def Datum.of_string (bytes : List Nat) : Datum :=
  { boolval := false, smallintval := 0, intval := 0, bigintval := 0,
    floatval := 0, doubleval := 0, pointerval := c_buffer bytes }

/-! ## Expression trees: `deep_copy` -/

/-- The ways a function over expression trees stops without returning: `assert(false)` is
reached; a string function reads a buffer that holds no terminator; a member function is called
through the null pointer that a failed `dynamic_cast` returned; an exception is thrown. -/
inductive ExprFault where
  | assert_false
  | undefined_read
  | null_dereference
  | runtime_error (msg : String)
  deriving DecidableEq, Repr

/-- The function `Constant::deep_copy` (Analyzer.cpp, lines 75-86): the datum is copied, and
the string of a non-null string constant is copied into a buffer of its own with `strlen` and
`strcpy`. -/
def Constant.deep_copy (self : Constant) : Except ExprFault Constant :=
  let d := self.constval
  if IS_STRING self.type_info.type && !self.is_null then
    match c_string self.constval.pointerval with
    | none => .error .undefined_read
    | some bytes => .ok ⟨self.type_info, self.is_null, { d with pointerval := c_buffer bytes }⟩
  else
    .ok ⟨self.type_info, self.is_null, d⟩

mutual
/-- The virtual function `deep_copy` of each variant (Analyzer.cpp, lines 63-127).  Where one
constructor call copies several children, they are copied from left to right (C++ leaves the
order open; it only decides which fault is met first when several children fault). -/
def Expr.deep_copy : Expr → Except ExprFault Expr
  | .ColumnVar type_info table_id column_id rte_idx =>
    .ok (.ColumnVar type_info table_id column_id rte_idx)
  | .Var type_info table_id column_id is_inner varno =>
    .ok (.Var type_info table_id column_id is_inner varno)
  | .Constant c =>
    match c.deep_copy with
    | .error f => .error f
    | .ok d => .ok (.Constant d)
  | .UOper type_info optype operand =>
    match operand.deep_copy with
    | .error f => .error f
    | .ok o => .ok (.UOper type_info optype o)
  | .BinOper type_info optype qualifier left_operand right_operand =>
    match left_operand.deep_copy with
    | .error f => .error f
    | .ok l =>
      match right_operand.deep_copy with
      | .error f => .error f
      | .ok r => .ok (.BinOper type_info optype qualifier l r)
  | .Subquery _ => .error .assert_false
  | .InValues arg value_list =>
    match Expr.deep_copy_list value_list with
    | .error f => .error f
    | .ok new_value_list =>
      match arg.deep_copy with
      | .error f => .error f
      | .ok a => .ok (.InValues a new_value_list)
  | .LikeExpr arg like_expr escape_expr =>
    match arg.deep_copy with
    | .error f => .error f
    | .ok a =>
      match like_expr.deep_copy with
      | .error f => .error f
      | .ok l =>
        match Expr.deep_copy_optional escape_expr with
        | .error f => .error f
        | .ok e => .ok (.LikeExpr a l e)
  | .AggExpr type_info aggtype arg is_distinct agg_idx =>
    match arg.deep_copy with
    | .error f => .error f
    | .ok a => .ok (.AggExpr type_info aggtype a is_distinct agg_idx)
/-- The loop `for (auto p : *value_list) new_value_list->push_back(p->deep_copy());`. -/
def Expr.deep_copy_list : List Expr → Except ExprFault (List Expr)
  | [] => .ok []
  | p :: rest =>
    match p.deep_copy with
    | .error f => .error f
    | .ok q =>
      match Expr.deep_copy_list rest with
      | .error f => .error f
      | .ok qs => .ok (q :: qs)
/-- The expression `escape_expr == nullptr ? nullptr : escape_expr->deep_copy()`. -/
def Expr.deep_copy_optional : Option Expr → Except ExprFault (Option Expr)
  | none => .ok none
  | some e =>
    match e.deep_copy with
    | .error f => .error f
    | .ok d => .ok (some d)
end

/-! ## Structural equality of expression trees, as the specification words it -/

/-- Two constants are structurally equal: same type, same null flag, same scalar members, and,
for a non-null string constant, the same string. -/
def Constant.structurally_equal (a b : Constant) : Bool :=
  decide (a.type_info = b.type_info) && decide (a.is_null = b.is_null)
    && decide ({ a.constval with pointerval := [] } = { b.constval with pointerval := [] })
    && (if IS_STRING a.type_info.type && !a.is_null then
          decide (c_string a.constval.pointerval = c_string b.constval.pointerval)
        else decide (a.constval.pointerval = b.constval.pointerval))

mutual
/-- Two expressions are structurally equal: same variant, same type, same scalar fields,
structurally equal constants, and structurally equal children in the same order. -/
def Expr.structurally_equal : Expr → Expr → Bool
  | .ColumnVar t1 a1 b1 c1, .ColumnVar t2 a2 b2 c2 =>
    decide (t1 = t2) && decide (a1 = a2) && decide (b1 = b2) && decide (c1 = c2)
  | .Var t1 a1 b1 i1 v1, .Var t2 a2 b2 i2 v2 =>
    decide (t1 = t2) && decide (a1 = a2) && decide (b1 = b2) && decide (i1 = i2)
      && decide (v1 = v2)
  | .Constant c1, .Constant c2 => c1.structurally_equal c2
  | .UOper t1 o1 e1, .UOper t2 o2 e2 =>
    decide (t1 = t2) && decide (o1 = o2) && Expr.structurally_equal e1 e2
  | .BinOper t1 o1 q1 l1 r1, .BinOper t2 o2 q2 l2 r2 =>
    decide (t1 = t2) && decide (o1 = o2) && decide (q1 = q2)
      && Expr.structurally_equal l1 l2 && Expr.structurally_equal r1 r2
  | .Subquery t1, .Subquery t2 => decide (t1 = t2)
  | .InValues a1 l1, .InValues a2 l2 =>
    Expr.structurally_equal a1 a2 && Expr.structurally_equal_list l1 l2
  | .LikeExpr a1 l1 e1, .LikeExpr a2 l2 e2 =>
    Expr.structurally_equal a1 a2 && Expr.structurally_equal l1 l2
      && Expr.structurally_equal_optional e1 e2
  | .AggExpr t1 g1 a1 d1 i1, .AggExpr t2 g2 a2 d2 i2 =>
    decide (t1 = t2) && decide (g1 = g2) && Expr.structurally_equal a1 a2
      && decide (d1 = d2) && decide (i1 = i2)
  | _, _ => false
/-- Two lists of expressions are structurally equal: same length, and structurally equal
members position by position. -/
def Expr.structurally_equal_list : List Expr → List Expr → Bool
  | [], [] => true
  | e1 :: r1, e2 :: r2 => Expr.structurally_equal e1 e2 && Expr.structurally_equal_list r1 r2
  | _, _ => false
/-- Two optional expressions are structurally equal: both absent, or both present and
structurally equal. -/
def Expr.structurally_equal_optional : Option Expr → Option Expr → Bool
  | none, none => true
  | some e1, some e2 => Expr.structurally_equal e1 e2
  | _, _ => false
end

mutual
/-- The expression contains a `Subquery` node. -/
def Expr.has_subquery : Expr → Bool
  | .ColumnVar _ _ _ _ => false
  | .Var _ _ _ _ _ => false
  | .Constant _ => false
  | .UOper _ _ operand => operand.has_subquery
  | .BinOper _ _ _ l r => l.has_subquery || r.has_subquery
  | .Subquery _ => true
  | .InValues arg value_list => arg.has_subquery || Expr.has_subquery_list value_list
  | .LikeExpr arg like_expr escape_expr =>
    arg.has_subquery || like_expr.has_subquery || Expr.has_subquery_optional escape_expr
  | .AggExpr _ _ arg _ _ => arg.has_subquery
/-- Some member of the list contains a `Subquery` node. -/
def Expr.has_subquery_list : List Expr → Bool
  | [] => false
  | e :: rest => e.has_subquery || Expr.has_subquery_list rest
/-- The optional expression is present and contains a `Subquery` node. -/
def Expr.has_subquery_optional : Option Expr → Bool
  | none => false
  | some e => e.has_subquery
end

/-- The payload of the constant is a string: it is null, or not of a string type, or its buffer
holds a terminator after written bytes only. -/
def Constant.string_terminated (c : Constant) : Bool :=
  !(IS_STRING c.type_info.type && !c.is_null) || (c_string c.constval.pointerval).isSome

mutual
/-- Every string constant in the expression holds a terminated string. -/
def Expr.strings_terminated : Expr → Bool
  | .ColumnVar _ _ _ _ => true
  | .Var _ _ _ _ _ => true
  | .Constant c => c.string_terminated
  | .UOper _ _ operand => operand.strings_terminated
  | .BinOper _ _ _ l r => l.strings_terminated && r.strings_terminated
  | .Subquery _ => true
  | .InValues arg value_list =>
    arg.strings_terminated && Expr.strings_terminated_list value_list
  | .LikeExpr arg like_expr escape_expr =>
    arg.strings_terminated && like_expr.strings_terminated
      && Expr.strings_terminated_optional escape_expr
  | .AggExpr _ _ arg _ _ => arg.strings_terminated
/-- Every string constant in the list of expressions holds a terminated string. -/
def Expr.strings_terminated_list : List Expr → Bool
  | [] => true
  | e :: rest => e.strings_terminated && Expr.strings_terminated_list rest
/-- Every string constant in the optional expression holds a terminated string. -/
def Expr.strings_terminated_optional : Option Expr → Bool
  | none => true
  | some e => e.strings_terminated
end

/-! ## Integer payloads -/

/-- The member of the datum that a constant of integer kind `k` uses: `smallintval` for
SMALLINT, `intval` for INT, `bigintval` for BIGINT. -/
def Datum.integer_member (k : SQLTypes) (d : Datum) : Int :=
  match k with
  | .kSMALLINT => d.smallintval
  | .kINT => d.intval
  | _ => d.bigintval

/-- The width in bits of the integer kinds: 16, 32 and 64. -/
def integer_width : SQLTypes → Nat
  | .kSMALLINT => 16
  | .kINT => 32
  | _ => 64

/-- The value `v` reduced modulo `2 ^ w` and read as a signed `w`-bit integer. -/
def wrap_signed (w : Nat) (v : Int) : Int := (v + 2 ^ (w - 1)) % 2 ^ w - 2 ^ (w - 1)

/-- The value `v` is a signed `w`-bit integer. -/
def fits_signed (w : Nat) (v : Int) : Prop := -2 ^ (w - 1) ≤ v ∧ v < 2 ^ (w - 1)

/-! ## Predicate classification: `group_predicates` -/

mutual
/-- Modelled from the spec: the virtual function `collect_rte_idx` is defined in the missing
`Analyzer.h`; the specification has it collect, into a set, the range-table entries that the
leaves of an expression reference, that is the `rte_idx` of every `ColumnVar` below it. -/
def Expr.collect_rte_idx : Expr → Finset Int → Finset Int
  | .ColumnVar _ _ _ rte_idx, rte_idx_set => insert rte_idx rte_idx_set
  | .Var _ _ _ _ _, rte_idx_set => rte_idx_set
  | .Constant _, rte_idx_set => rte_idx_set
  | .UOper _ _ operand, rte_idx_set => operand.collect_rte_idx rte_idx_set
  | .BinOper _ _ _ left_operand right_operand, rte_idx_set =>
    right_operand.collect_rte_idx (left_operand.collect_rte_idx rte_idx_set)
  | .Subquery _, rte_idx_set => rte_idx_set
  | .InValues arg value_list, rte_idx_set =>
    Expr.collect_rte_idx_list value_list (arg.collect_rte_idx rte_idx_set)
  | .LikeExpr arg like_expr escape_expr, rte_idx_set =>
    Expr.collect_rte_idx_optional escape_expr
      (like_expr.collect_rte_idx (arg.collect_rte_idx rte_idx_set))
  | .AggExpr _ _ arg _ _, rte_idx_set => arg.collect_rte_idx rte_idx_set
/-- Modelled from the spec: `collect_rte_idx` over the members of a list, in order. -/
def Expr.collect_rte_idx_list : List Expr → Finset Int → Finset Int
  | [], rte_idx_set => rte_idx_set
  | e :: rest, rte_idx_set => Expr.collect_rte_idx_list rest (e.collect_rte_idx rte_idx_set)
/-- Modelled from the spec: `collect_rte_idx` over an optional child. -/
def Expr.collect_rte_idx_optional : Option Expr → Finset Int → Finset Int
  | none, rte_idx_set => rte_idx_set
  | some e, rte_idx_set => e.collect_rte_idx rte_idx_set
end

/-- The three output lists of `group_predicates`. -/
structure PredicateLists where
  scan_predicates : List Expr
  join_predicates : List Expr
  const_predicates : List Expr

/-- The tail shared by the `group_predicates` of `UOper`, `BinOper`, `InValues`, `LikeExpr`
and `AggExpr`: `this` is pushed to the back of the join list when the set has more than one
member, of the scan list when it has one, and of the constant list otherwise. -/
def push_by_rte_count (this : Expr) (rte_idx_set : Finset Int) (lists : PredicateLists) :
    PredicateLists :=
  if rte_idx_set.card > 1 then
    { lists with join_predicates := lists.join_predicates ++ [this] }
  else if rte_idx_set.card = 1 then
    { lists with scan_predicates := lists.scan_predicates ++ [this] }
  else
    { lists with const_predicates := lists.const_predicates ++ [this] }

/-- The virtual function `group_predicates` (Analyzer.cpp, lines 643-719).  Modelled from the
spec: `Var`, `Constant` and `Subquery` have no `group_predicates` in `Analyzer.cpp`; the
specification places a predicate by the number of range-table entries its leaves reference. -/
def Expr.group_predicates : Expr → PredicateLists → PredicateLists
  | .ColumnVar type_info table_id column_id rte_idx, lists =>
    if type_info.type = .kBOOLEAN then
      { lists with
        scan_predicates :=
          lists.scan_predicates ++ [.ColumnVar type_info table_id column_id rte_idx] }
    else lists
  | .UOper type_info optype operand, lists =>
    push_by_rte_count (.UOper type_info optype operand) (operand.collect_rte_idx ∅) lists
  | .BinOper type_info optype qualifier left_operand right_operand, lists =>
    if optype = .kAND then
      right_operand.group_predicates (left_operand.group_predicates lists)
    else
      push_by_rte_count (.BinOper type_info optype qualifier left_operand right_operand)
        (right_operand.collect_rte_idx (left_operand.collect_rte_idx ∅)) lists
  | .InValues arg value_list, lists =>
    push_by_rte_count (.InValues arg value_list) (arg.collect_rte_idx ∅) lists
  | .LikeExpr arg like_expr escape_expr, lists =>
    push_by_rte_count (.LikeExpr arg like_expr escape_expr) (arg.collect_rte_idx ∅) lists
  | .AggExpr type_info aggtype arg is_distinct agg_idx, lists =>
    push_by_rte_count (.AggExpr type_info aggtype arg is_distinct agg_idx)
      (arg.collect_rte_idx ∅) lists
  | .Var type_info table_id column_id is_inner varno, lists =>
    push_by_rte_count (.Var type_info table_id column_id is_inner varno)
      ((Expr.Var type_info table_id column_id is_inner varno).collect_rte_idx ∅) lists
  | .Constant c, lists =>
    push_by_rte_count (.Constant c) ((Expr.Constant c).collect_rte_idx ∅) lists
  | .Subquery type_info, lists =>
    push_by_rte_count (.Subquery type_info) ((Expr.Subquery type_info).collect_rte_idx ∅) lists

/-- The top-level conjuncts of a predicate: the maximal subexpressions that are not a binary
`AND`, reached through nested binary `AND`s, from left to right. -/
def Expr.conjuncts : Expr → List Expr
  | .BinOper type_info optype qualifier left_operand right_operand =>
    if optype = .kAND then left_operand.conjuncts ++ right_operand.conjuncts
    else [.BinOper type_info optype qualifier left_operand right_operand]
  | e => [e]

/-- The expression is a bare `ColumnVar` whose type is not BOOLEAN. -/
def Expr.is_non_boolean_column : Expr → Bool
  | .ColumnVar type_info _ _ _ => decide (type_info.type ≠ .kBOOLEAN)
  | _ => false

/-- The nodes that `group_predicates` classifies as a whole by a count of range-table indices:
`UOper`, a `BinOper` other than `AND`, `InValues`, `LikeExpr` and `AggExpr`. -/
def Expr.is_classified_node : Expr → Bool
  | .UOper _ _ _ => true
  | .BinOper _ optype _ _ _ => decide (optype ≠ .kAND)
  | .InValues _ _ => true
  | .LikeExpr _ _ _ => true
  | .AggExpr _ _ _ _ _ => true
  | _ => false

/-- The children from which `group_predicates` collects range-table indices when it classifies
a node: the operand of a `UOper`, the two operands of a `BinOper`, and the `arg` child alone of
an `InValues`, a `LikeExpr` or an `AggExpr`. -/
def Expr.consulted_children : Expr → List Expr
  | .UOper _ _ operand => [operand]
  | .BinOper _ _ _ left_operand right_operand => [left_operand, right_operand]
  | .InValues arg _ => [arg]
  | .LikeExpr arg _ _ => [arg]
  | .AggExpr _ _ arg _ _ => [arg]
  | _ => []

/-- The list `lists` with the node `this` pushed to the back of the constant list when `n = 0`,
of the scan list when `n = 1`, and of the join list when `n ≥ 2`. -/
def push_by_count (this : Expr) (n : Nat) (lists : PredicateLists) : PredicateLists :=
  match n with
  | 0 => { lists with const_predicates := lists.const_predicates ++ [this] }
  | 1 => { lists with scan_predicates := lists.scan_predicates ++ [this] }
  | _ => { lists with join_predicates := lists.join_predicates ++ [this] }

/-! ## Simple-predicate normalization -/

/-- Modelled from the spec: the macro `COMMUTE_COMPARISON` of `sqldefs.h` is missing; it
exchanges `<` with `>` and `<=` with `>=` and keeps `=` and `<>`. -/
def COMMUTE_COMPARISON : SQLOps → SQLOps
  | .kLT => .kGT
  | .kGT => .kLT
  | .kLE => .kGE
  | .kGE => .kLE
  | op => op

/-- The function `BinOper::normalize_simple_predicate` (Analyzer.cpp, lines 624-640) on the
`BinOper` with the given members; it returns the pointer result (`none` for `nullptr`) together
with the final value of the out-parameter `rte_idx`. -/
def BinOper.normalize_simple_predicate (type_info : SQLTypeInfo) (optype : SQLOps)
    (qualifier : SQLQualifier) (left_operand right_operand : Expr) :
    Except ExprFault (Option Expr × Int) :=
  if !IS_COMPARISON optype then .ok (none, -1)
  else
    match left_operand, right_operand with
    | .ColumnVar _ _ _ rte_idx, .Constant _ =>
      match (Expr.BinOper type_info optype qualifier left_operand right_operand).deep_copy with
      | .error f => .error f
      | .ok copy => .ok (some copy, rte_idx)
    | .Constant _, .ColumnVar _ _ _ rte_idx =>
      match right_operand.deep_copy with
      | .error f => .error f
      | .ok r =>
        match left_operand.deep_copy with
        | .error f => .error f
        | .ok l => .ok (some (.BinOper type_info (COMMUTE_COMPARISON optype) qualifier r l), rte_idx)
    | _, _ => .ok (none, -1)

/-- The expression is a `ColumnVar` node. -/
def Expr.is_column_var : Expr → Bool
  | .ColumnVar _ _ _ _ => true
  | _ => false

/-- The expression is a `Constant` node. -/
def Expr.is_constant : Expr → Bool
  | .Constant _ => true
  | _ => false

/-! ## Target-list rewriting and the GROUP BY check -/

/-- Modelled from the spec: the class `TargetEntry` is declared in the missing `Analyzer.h`; it
pairs an output column name with the projected expression. -/
structure TargetEntry where
  resname : String
  expr : Expr

/-- The function `ColumnVar::rewrite_with_targetlist` (Analyzer.cpp, lines 721-733), for a
receiver with the given `table_id` and `column_id`.  `dynamic_cast<const ColumnVar*>(e)` is null
for every expression that is not a `ColumnVar`, and the two accessor calls that follow go
through that pointer unchecked.  Whether class `Var` derives from `ColumnVar`, so that the cast
succeeds on a `Var`, is fixed in the missing header and is the parameter `var_is_column_var`. -/
def ColumnVar.rewrite_with_targetlist (var_is_column_var : Bool) (table_id column_id : Int) :
    List TargetEntry → Except ExprFault Expr
  | [] => .error (.runtime_error "Intern error: cannot find ColumnVar in targetlist.")
  | tle :: rest =>
    match tle.expr with
    | .AggExpr _ _ _ _ _ =>
      ColumnVar.rewrite_with_targetlist var_is_column_var table_id column_id rest
    | .ColumnVar type_info tid cid rte_idx =>
      if table_id = tid ∧ column_id = cid then
        (Expr.ColumnVar type_info tid cid rte_idx).deep_copy
      else ColumnVar.rewrite_with_targetlist var_is_column_var table_id column_id rest
    | .Var type_info tid cid is_inner varno =>
      if var_is_column_var then
        if table_id = tid ∧ column_id = cid then
          (Expr.Var type_info tid cid is_inner varno).deep_copy
        else ColumnVar.rewrite_with_targetlist var_is_column_var table_id column_id rest
      else .error .null_dereference
    | _ => .error .null_dereference

/-- The loop of `ColumnVar::check_group_by` over the GROUP BY list: it returns at the first
member with the receiver's `table_id` and `column_id`; `dynamic_cast<ColumnVar*>(e)` is null for
every member that is not a `ColumnVar`, and the accessor calls go through it unchecked.  When
the loop ends the function throws. -/
def ColumnVar.check_group_by_loop (var_is_column_var : Bool) (table_id column_id : Int) :
    List Expr → Except ExprFault Unit
  | [] =>
    .error (.runtime_error
      "expressions in the SELECT or HAVING clause must be an aggregate function or an expression over GROUP BY columns.")
  | e :: rest =>
    match e with
    | .ColumnVar _ tid cid _ =>
      if table_id = tid ∧ column_id = cid then .ok ()
      else ColumnVar.check_group_by_loop var_is_column_var table_id column_id rest
    | .Var _ tid cid _ _ =>
      if var_is_column_var then
        if table_id = tid ∧ column_id = cid then .ok ()
        else ColumnVar.check_group_by_loop var_is_column_var table_id column_id rest
      else .error .null_dereference
    | _ => .error .null_dereference

/-- The function `ColumnVar::check_group_by` (Analyzer.cpp, lines 598-609); `groupby` is
`none` for a null pointer. -/
def ColumnVar.check_group_by (var_is_column_var : Bool) (table_id column_id : Int)
    (groupby : Option (List Expr)) : Except ExprFault Unit :=
  match groupby with
  | some l => ColumnVar.check_group_by_loop var_is_column_var table_id column_id l
  | none => ColumnVar.check_group_by_loop var_is_column_var table_id column_id []

/-- The virtual function `check_group_by` (Analyzer.cpp, lines 598-622) of `ColumnVar`, `UOper`
and `BinOper`.  The other variants have theirs in the missing header: it is the parameter
`other`. -/
def Expr.check_group_by (var_is_column_var : Bool)
    (other : Expr → Option (List Expr) → Except ExprFault Unit) :
    Expr → Option (List Expr) → Except ExprFault Unit
  | .ColumnVar _ table_id column_id _, groupby =>
    ColumnVar.check_group_by var_is_column_var table_id column_id groupby
  | .UOper _ _ operand, groupby => operand.check_group_by var_is_column_var other groupby
  | .BinOper _ _ _ left_operand right_operand, groupby =>
    match left_operand.check_group_by var_is_column_var other groupby with
    | .error f => .error f
    | .ok () => right_operand.check_group_by var_is_column_var other groupby
  | e, groupby => other e groupby

/-- The expression is built from `ColumnVar`, `UOper` and `BinOper` nodes only. -/
def Expr.is_column_operator_tree : Expr → Bool
  | .ColumnVar _ _ _ _ => true
  | .UOper _ _ operand => operand.is_column_operator_tree
  | .BinOper _ _ _ left_operand right_operand =>
    left_operand.is_column_operator_tree && right_operand.is_column_operator_tree
  | _ => false

/-- The `(table_id, column_id)` pairs of the `ColumnVar` leaves of an expression built from
`ColumnVar`, `UOper` and `BinOper` nodes, from left to right. -/
def Expr.column_leaves : Expr → List (Int × Int)
  | .ColumnVar _ table_id column_id _ => [(table_id, column_id)]
  | .UOper _ _ operand => operand.column_leaves
  | .BinOper _ _ _ left_operand right_operand =>
    left_operand.column_leaves ++ right_operand.column_leaves
  | _ => []

/-- The expression is a `ColumnVar` with the given `table_id` and `column_id`. -/
def Expr.is_column (table_id column_id : Int) : Expr → Bool
  | .ColumnVar _ tid cid _ => decide (table_id = tid ∧ column_id = cid)
  | _ => false

/-! ## Range-table entries and the query -/

/-- Modelled from the spec: `ColumnDescriptor` belongs to the catalog, which is outside the
sources; it exposes at least `column_id`, `column_name` and `column_type`. -/
structure ColumnDescriptor where
  tableId : Int
  columnId : Int
  columnName : String
  columnType : SQLTypeInfo
  deriving DecidableEq, Repr

/-- Modelled from the spec: `TableDescriptor` belongs to the catalog; it exposes at least
`table_id`. -/
structure TableDescriptor where
  tableId : Int
  deriving DecidableEq, Repr

/-- Modelled from the spec: the catalog is an external collaborator consulted through two
read-only lookups; `getMetadataForColumn` answers `none` for a null pointer. -/
structure Catalog where
  getAllColumnMetadataForTable : Int → List ColumnDescriptor
  getMetadataForColumn : Int → String → Option ColumnDescriptor

/-- Modelled from the spec: the class `RangeTblEntry` is declared in the missing `Analyzer.h`:
the alias `rangevar`, the table descriptor, and the cached list of column descriptors.  The
optional view query, which only the destructor touches, is left out. -/
structure RangeTblEntry where
  rangevar : String
  table_desc : TableDescriptor
  column_descs : List ColumnDescriptor
  deriving DecidableEq, Repr

/-- The function `RangeTblEntry::get_column_desc` (Analyzer.cpp, lines 567-578): the state of
the entry after the call, and the returned pointer (`none` for `nullptr`). -/
def RangeTblEntry.get_column_desc (self : RangeTblEntry) (catalog : Catalog) (name : String) :
    RangeTblEntry × Option ColumnDescriptor :=
  match self.column_descs.find? (fun cd => cd.columnName = name) with
  | some cd => (self, some cd)
  | none =>
    match catalog.getMetadataForColumn self.table_desc.tableId name with
    | some cd => ({ self with column_descs := self.column_descs ++ [cd] }, some cd)
    | none => (self, none)

/-- Modelled from the spec: the class `Query` is declared in the missing `Analyzer.h`; of its
members the functions of `Analyzer.cpp` other than the destructor use the range table only. -/
structure Query where
  targetlist : List TargetEntry
  rangetable : List RangeTblEntry
  where_predicate : Option Expr
  group_by : Option (List Expr)
  having_predicate : Option Expr

/-- The loop of `Query::get_rte_idx` from the entry numbered `rte_idx` on. -/
def get_rte_idx_loop (name : String) : List RangeTblEntry → Int → Int
  | [], _ => -1
  | rte :: rest, rte_idx =>
    if rte.rangevar = name then rte_idx else get_rte_idx_loop name rest (rte_idx + 1)

/-- The function `Query::get_rte_idx` (Analyzer.cpp, lines 580-590). -/
def Query.get_rte_idx (self : Query) (name : String) : Int :=
  get_rte_idx_loop name self.rangetable 0

/-- The function `Query::add_rte` (Analyzer.cpp, lines 592-596). -/
def Query.add_rte (self : Query) (rte : RangeTblEntry) : Query :=
  { self with rangetable := self.rangetable ++ [rte] }

/-- A query with nothing in it: the state from which successive `add_rte` calls build a range
table. -/
def Query.empty : Query :=
  { targetlist := [], rangetable := [], where_predicate := none, group_by := none,
    having_predicate := none }

/-! ## Expressions for worked examples -/

/-- The BOOLEAN type descriptor. -/
def boolean_type : SQLTypeInfo := ⟨.kBOOLEAN, 0, 0⟩

/-- An INT column of the table `table_id`, bound to the range-table entry `rte_idx`. -/
def int_column (table_id column_id rte_idx : Int) : Expr :=
  .ColumnVar ⟨.kINT, 0, 0⟩ table_id column_id rte_idx

/-- The non-null INT constant `v`. -/
def int_constant (v : Int) : Expr := .Constant ⟨⟨.kINT, 0, 0⟩, false, Datum.of_int v⟩

/-- The comparison `left op right`, of type BOOLEAN. -/
def comparison (op : SQLOps) (left right : Expr) : Expr :=
  .BinOper boolean_type op .kONE left right

/-- The conjunction `left AND right`. -/
def conjunction (left right : Expr) : Expr := .BinOper boolean_type .kAND .kONE left right

/-- The three empty output lists. -/
def PredicateLists.empty : PredicateLists := ⟨[], [], []⟩

/-- The expression is a binary `AND`. -/
def Expr.is_conjunction : Expr → Bool
  | .BinOper _ optype _ _ _ => decide (optype = .kAND)
  | _ => false

/-- The expression is an `AggExpr` node. -/
def Expr.is_agg_expr : Expr → Bool
  | .AggExpr _ _ _ _ _ => true
  | _ => false

/-- The message of the exception that `ColumnVar::check_group_by` throws. -/
def group_by_violation : ExprFault :=
  .runtime_error
    "expressions in the SELECT or HAVING clause must be an aggregate function or an expression over GROUP BY columns."

/-- The message of the exception that `ColumnVar::rewrite_with_targetlist` throws. -/
def column_not_in_targetlist : ExprFault :=
  .runtime_error "Intern error: cannot find ColumnVar in targetlist."

/-- A type of an integer or floating kind carries dimension 0 and scale 0. -/
def plain_descriptor (t : SQLTypeInfo) : Prop :=
  is_fixed_kind t.type = false → t.dimension = 0 ∧ t.scale = 0

/-! ## Theorems: the promotion lattice -/

/-- A value inside the 32-bit range is left alone by `toInt32`. -/
theorem toInt32_of_range (x : Int) (hlo : -2 ^ 31 ≤ x) (hhi : x < 2 ^ 31) : toInt32 x = x := by
  unfold toInt32
  rw [Int.emod_eq_of_lt (by omega) (by omega)]
  omega

/-- C1 (evaluation at the failing input): with INT first and NUMERIC(10,4) second the common
type is NUMERIC(14,4), with the arguments exchanged it is NUMERIC(10,0): the two orders
disagree in dimension and in scale. -/
theorem common_numeric_type_int_numeric_orders_differ (dflt : SQLTypeInfo) :
    common_numeric_type dflt ⟨.kINT, 0, 0⟩ ⟨.kNUMERIC, 10, 4⟩ = .ok ⟨.kNUMERIC, 14, 4⟩
    ∧ common_numeric_type dflt ⟨.kNUMERIC, 10, 4⟩ ⟨.kINT, 0, 0⟩ = .ok ⟨.kNUMERIC, 10, 0⟩
    ∧ common_numeric_type dflt ⟨.kINT, 0, 0⟩ ⟨.kNUMERIC, 10, 4⟩
        ≠ common_numeric_type dflt ⟨.kNUMERIC, 10, 4⟩ ⟨.kINT, 0, 0⟩ := by
  have h1 : common_numeric_type dflt ⟨.kINT, 0, 0⟩ ⟨.kNUMERIC, 10, 4⟩
      = .ok ⟨.kNUMERIC, 14, 4⟩ := rfl
  have h2 : common_numeric_type dflt ⟨.kNUMERIC, 10, 4⟩ ⟨.kINT, 0, 0⟩
      = .ok ⟨.kNUMERIC, 10, 0⟩ := rfl
  refine ⟨h1, h2, ?_⟩
  rw [h1, h2]
  decide

/-- With the integer operand first, the common type of an integer kind and a NUMERIC/DECIMAL
type with `0 ≤ scale ≤ dimension ≤ 19` is NUMERIC with the fixed-point operand's scale and the
dimension of the specification. -/
theorem common_numeric_type_integer_first (dflt k n : SQLTypeInfo)
    (hk : is_integer_kind k.type = true) (hn : is_fixed_kind n.type = true)
    (hd : descriptor_ok n) :
    common_numeric_type dflt k n = .ok
      ⟨.kNUMERIC,
       (match k.type with
        | .kSMALLINT => max (5 + n.scale) n.dimension
        | .kINT => max (min 19 (10 + n.scale)) n.dimension
        | _ => 19),
       n.scale⟩ := by
  obtain ⟨tk, dk, sk⟩ := k
  obtain ⟨tn, dn, sn⟩ := n
  have h5 : toInt32 (5 + sn) = 5 + sn := by
    have := hd hn
    exact toInt32_of_range _ (by simp only at this; omega) (by simp only at this; omega)
  have h10 : toInt32 (10 + sn) = 10 + sn := by
    have := hd hn
    exact toInt32_of_range _ (by simp only at this; omega) (by simp only at this; omega)
  cases tk <;> cases tn <;>
    simp_all [common_numeric_type, IS_NUMBER, is_integer_kind, is_fixed_kind]

/-- C2 (evaluation at the failing input): with NUMERIC(10,4) first and INT second the result is
NUMERIC(10,0), built from the INT operand's scale and dimension, and not the NUMERIC(14,4) that
the integer-first order returns. -/
theorem common_numeric_type_numeric_first_reads_integer_fields (dflt : SQLTypeInfo) :
    common_numeric_type dflt ⟨.kNUMERIC, 10, 4⟩ ⟨.kINT, 0, 0⟩ = .ok ⟨.kNUMERIC, 10, 0⟩
    ∧ common_numeric_type dflt ⟨.kNUMERIC, 10, 4⟩ ⟨.kINT, 0, 0⟩
        ≠ .ok ⟨.kNUMERIC, max (min 19 (10 + 4)) 10, 4⟩ := by
  have h : common_numeric_type dflt ⟨.kNUMERIC, 10, 4⟩ ⟨.kINT, 0, 0⟩
      = .ok ⟨.kNUMERIC, 10, 0⟩ := rfl
  refine ⟨h, ?_⟩
  rw [h]
  decide

/-- With the fixed-point operand first, the code computes scale and dimension from the fields of
the integer operand (its second argument, here with fields in `0 ≤ scale ≤ dimension ≤ 19`) in
place of those of the fixed-point operand. -/
theorem common_numeric_type_fixed_first (dflt n k : SQLTypeInfo)
    (hn : is_fixed_kind n.type = true) (hk : is_integer_kind k.type = true)
    (hs : 0 ≤ k.scale) (hsd : k.scale ≤ k.dimension) (hd19 : k.dimension ≤ 19) :
    common_numeric_type dflt n k = .ok
      ⟨.kNUMERIC,
       (match k.type with
        | .kSMALLINT => max (5 + k.scale) k.dimension
        | .kINT => max (min 19 (10 + k.scale)) k.dimension
        | _ => 19),
       k.scale⟩ := by
  obtain ⟨tk, dk, sk⟩ := k
  obtain ⟨tn, dn, sn⟩ := n
  simp only at hs hsd hd19
  have h5 : toInt32 (5 + sk) = 5 + sk := toInt32_of_range _ (by omega) (by omega)
  have h10 : toInt32 (10 + sk) = 10 + sk := toInt32_of_range _ (by omega) (by omega)
  cases tk <;> cases tn <;>
    simp_all [common_numeric_type, IS_NUMBER, is_integer_kind, is_fixed_kind]

/-- C3 (counterexample): for NUMERIC(10,2) and NUMERIC(5,4), two types of the same kind, the
code returns dimension 10 where `max (d1 - s1) (d2 - s2) + max s1 s2` is 12, so the stated
formula does not hold for every two fixed-point types. -/
theorem common_numeric_type_same_kind_not_integer_part_union :
    ¬ (∀ dflt a b : SQLTypeInfo, is_fixed_kind a.type = true → is_fixed_kind b.type = true →
        ∃ r, common_numeric_type dflt a b = .ok r
          ∧ r.scale = max a.scale b.scale
          ∧ r.dimension = max (a.dimension - a.scale) (b.dimension - b.scale)
              + max a.scale b.scale) := by
  intro h
  obtain ⟨r, hr, -, hd⟩ := h ⟨.kBOOLEAN, 0, 0⟩ ⟨.kNUMERIC, 10, 2⟩ ⟨.kNUMERIC, 5, 4⟩ rfl rfl
  have hev : common_numeric_type ⟨.kBOOLEAN, 0, 0⟩ ⟨.kNUMERIC, 10, 2⟩ ⟨.kNUMERIC, 5, 4⟩
      = .ok ⟨.kNUMERIC, 10, 4⟩ := by decide
  rw [hev] at hr
  cases hr
  revert hd
  decide

/-- C3 (amended): for two fixed-point types that satisfy `0 ≤ scale ≤ dimension ≤ 19`, the
scale of the common type is the larger scale; when the kinds differ (NUMERIC with DECIMAL) the
result is NUMERIC with dimension `max (d1 - s1) (d2 - s2) + max s1 s2`, and when the kinds are
equal the kind is kept and the dimension is `max d1 d2`. -/
theorem common_numeric_type_fixed_point (dflt a b : SQLTypeInfo)
    (ha : is_fixed_kind a.type = true) (hb : is_fixed_kind b.type = true)
    (hda : descriptor_ok a) (hdb : descriptor_ok b) :
    common_numeric_type dflt a b = .ok
      (if a.type = b.type then
         ⟨a.type, max a.dimension b.dimension, max a.scale b.scale⟩
       else
         ⟨.kNUMERIC,
          max (a.dimension - a.scale) (b.dimension - b.scale) + max a.scale b.scale,
          max a.scale b.scale⟩) := by
  obtain ⟨ta, da, sa⟩ := a
  obtain ⟨tb, db, sb⟩ := b
  have hra := hda ha
  have hrb := hdb hb
  simp only at hra hrb
  have h1 : toInt32 (da - sa) = da - sa := toInt32_of_range _ (by omega) (by omega)
  have h2 : toInt32 (db - sb) = db - sb := toInt32_of_range _ (by omega) (by omega)
  have h3 : toInt32 (max (da - sa) (db - sb) + max sa sb)
      = max (da - sa) (db - sb) + max sa sb := toInt32_of_range _ (by omega) (by omega)
  cases ta <;> cases tb <;>
    simp_all [common_numeric_type, IS_NUMBER, is_fixed_kind]

/-- Witness for `common_numeric_type_fixed_point`: NUMERIC(10,2) with DECIMAL(5,4) gives
NUMERIC(12,4). -/
theorem common_numeric_type_fixed_point_witness :
    common_numeric_type ⟨.kBOOLEAN, 0, 0⟩ ⟨.kNUMERIC, 10, 2⟩ ⟨.kDECIMAL, 5, 4⟩
      = .ok ⟨.kNUMERIC, 12, 4⟩ :=
  common_numeric_type_fixed_point ⟨.kBOOLEAN, 0, 0⟩ ⟨.kNUMERIC, 10, 2⟩ ⟨.kDECIMAL, 5, 4⟩ rfl rfl
    (fun _ => ⟨by decide, by decide, by decide⟩) (fun _ => ⟨by decide, by decide, by decide⟩)

/-- C4: for every ordered pair of numeric kinds, `common_numeric_type` returns, and the kind it
returns is the entry of the promotion table, whichever operand comes first. -/
theorem common_numeric_type_kind (dflt a b : SQLTypeInfo)
    (ha : IS_NUMBER a.type = true) (hb : IS_NUMBER b.type = true) :
    ∃ r1 r2, common_numeric_type dflt a b = .ok r1 ∧ common_numeric_type dflt b a = .ok r2
      ∧ r1.type = promotion_table a.type b.type ∧ r2.type = promotion_table a.type b.type := by
  obtain ⟨ta, da, sa⟩ := a
  obtain ⟨tb, db, sb⟩ := b
  cases ta <;> cases tb <;>
    simp_all [common_numeric_type, IS_NUMBER, promotion_table, is_integer_kind, is_fixed_kind,
      integer_rank]

/-- Witness for `common_numeric_type_kind`: BIGINT with FLOAT gives DOUBLE in both orders. -/
theorem common_numeric_type_kind_witness :
    ∃ r1 r2, common_numeric_type ⟨.kBOOLEAN, 0, 0⟩ ⟨.kBIGINT, 0, 0⟩ ⟨.kFLOAT, 0, 0⟩ = .ok r1
      ∧ common_numeric_type ⟨.kBOOLEAN, 0, 0⟩ ⟨.kFLOAT, 0, 0⟩ ⟨.kBIGINT, 0, 0⟩ = .ok r2
      ∧ r1.type = .kDOUBLE ∧ r2.type = .kDOUBLE :=
  common_numeric_type_kind ⟨.kBOOLEAN, 0, 0⟩ ⟨.kBIGINT, 0, 0⟩ ⟨.kFLOAT, 0, 0⟩ rfl rfl

/-- C5 (counterexample): BIGINT with NUMERIC(10,2) gives NUMERIC(19,2), which has 17 integer
digits where BIGINT counts 19: the common type does not hold both operands without loss for
every pair of exact numeric types. -/
theorem common_numeric_type_not_always_lossless :
    ¬ (∀ dflt a b : SQLTypeInfo, is_exact_kind a.type = true → is_exact_kind b.type = true →
        descriptor_ok a → descriptor_ok b →
        ∃ r, common_numeric_type dflt a b = .ok r
          ∧ contains_losslessly r a ∧ contains_losslessly r b) := by
  intro h
  obtain ⟨r, hr, ha, -⟩ := h ⟨.kBOOLEAN, 0, 0⟩ ⟨.kBIGINT, 0, 0⟩ ⟨.kNUMERIC, 10, 2⟩ rfl rfl
    (by simp [descriptor_ok, is_fixed_kind]) (by simp [descriptor_ok, is_fixed_kind])
  have hev : common_numeric_type ⟨.kBOOLEAN, 0, 0⟩ ⟨.kBIGINT, 0, 0⟩ ⟨.kNUMERIC, 10, 2⟩
      = .ok ⟨.kNUMERIC, 19, 2⟩ := by decide
  rw [hev] at hr
  cases hr
  have h2 := ha.2
  revert h2
  decide

/-- C5 (amended): for exact numeric operand types `a`, `b` whose fixed-point members satisfy
`0 ≤ scale ≤ dimension ≤ 19`, other than a fixed-point `a` with an integer `b`, the common type
has at least the fraction digits of each operand; unless `a` and `b` are fixed-point types of
one kind, it has at least the integer digits of each fixed-point operand and at least
`min k (19 - scale)` integer digits for an operand counted with `k` integer digits (so an
integer operand fits whenever `k + scale ≤ 19`); for two fixed-point types of one kind its
dimension is at least each operand's dimension. -/
theorem common_numeric_type_containment (dflt a b : SQLTypeInfo)
    (ha : is_exact_kind a.type = true) (hb : is_exact_kind b.type = true)
    (hda : descriptor_ok a) (hdb : descriptor_ok b)
    (horder : ¬ (is_fixed_kind a.type = true ∧ is_integer_kind b.type = true)) :
    ∃ r, common_numeric_type dflt a b = .ok r
      ∧ fraction_digits a ≤ fraction_digits r ∧ fraction_digits b ≤ fraction_digits r
      ∧ (if is_fixed_kind a.type = true ∧ a.type = b.type then
           a.dimension ≤ r.dimension ∧ b.dimension ≤ r.dimension
         else
           (is_fixed_kind a.type = true → integer_digits a ≤ integer_digits r)
           ∧ (is_fixed_kind b.type = true → integer_digits b ≤ integer_digits r)
           ∧ min (integer_digits a) (19 - fraction_digits r) ≤ integer_digits r
           ∧ min (integer_digits b) (19 - fraction_digits r) ≤ integer_digits r) := by
  obtain ⟨ta, da, sa⟩ := a
  obtain ⟨tb, db, sb⟩ := b
  cases ta <;> cases tb <;>
    simp_all [common_numeric_type, IS_NUMBER, is_exact_kind, is_integer_kind, is_fixed_kind,
      descriptor_ok, integer_digits, fraction_digits, toInt32] <;>
    omega

/-- Witness for `common_numeric_type_containment`: INT with NUMERIC(10,4) gives a type with 4
fraction digits and 10 integer digits. -/
theorem common_numeric_type_containment_witness :
    ∃ r, common_numeric_type ⟨.kBOOLEAN, 0, 0⟩ ⟨.kINT, 0, 0⟩ ⟨.kNUMERIC, 10, 4⟩ = .ok r
      ∧ fraction_digits ⟨.kINT, 0, 0⟩ ≤ fraction_digits r
      ∧ fraction_digits ⟨.kNUMERIC, 10, 4⟩ ≤ fraction_digits r
      ∧ (if is_fixed_kind SQLTypes.kINT = true ∧ SQLTypes.kINT = SQLTypes.kNUMERIC then
           (0 : Int) ≤ r.dimension ∧ (10 : Int) ≤ r.dimension
         else
           (is_fixed_kind SQLTypes.kINT = true →
              integer_digits ⟨.kINT, 0, 0⟩ ≤ integer_digits r)
           ∧ (is_fixed_kind SQLTypes.kNUMERIC = true →
              integer_digits ⟨.kNUMERIC, 10, 4⟩ ≤ integer_digits r)
           ∧ min (integer_digits ⟨.kINT, 0, 0⟩) (19 - fraction_digits r) ≤ integer_digits r
           ∧ min (integer_digits ⟨.kNUMERIC, 10, 4⟩) (19 - fraction_digits r)
               ≤ integer_digits r) :=
  common_numeric_type_containment ⟨.kBOOLEAN, 0, 0⟩ ⟨.kINT, 0, 0⟩ ⟨.kNUMERIC, 10, 4⟩ rfl rfl
    (by simp [descriptor_ok, is_fixed_kind]) (by simp [descriptor_ok]) (by decide)

/-! ## Theorems: `analyze_type_info` -/

/-- On two numeric operands `common_numeric_type` returns. -/
theorem common_numeric_type_returns (dflt a b : SQLTypeInfo)
    (ha : IS_NUMBER a.type = true) (hb : IS_NUMBER b.type = true) :
    ∃ r, common_numeric_type dflt a b = .ok r := by
  obtain ⟨ta, da, sa⟩ := a
  obtain ⟨tb, db, sb⟩ := b
  cases ta <;> cases tb <;> simp_all [common_numeric_type, IS_NUMBER]

/-- C6: for a comparison operator, `analyze_type_info` fails exactly when one operand is a
string type and the other is not, or one operand is numeric and the other is not; in every
other case it returns, the result kind is BOOLEAN, and `new_left` and `new_right` are both the
value of `common_numeric_type left right` when both operands are numeric and are the input
types otherwise. -/
theorem analyze_type_info_comparison (dflt : SQLTypeInfo) (op : SQLOps)
    (left_type right_type : SQLTypeInfo) (hop : IS_COMPARISON op = true) :
    ((∃ e, analyze_type_info dflt op left_type right_type = .error e) ↔
        (IS_STRING left_type.type ≠ IS_STRING right_type.type
          ∨ IS_NUMBER left_type.type ≠ IS_NUMBER right_type.type))
    ∧ (¬ (IS_STRING left_type.type ≠ IS_STRING right_type.type
          ∨ IS_NUMBER left_type.type ≠ IS_NUMBER right_type.type) →
        ∃ res, analyze_type_info dflt op left_type right_type = .ok res
          ∧ res.result_type.type = .kBOOLEAN
          ∧ (if IS_NUMBER left_type.type = true ∧ IS_NUMBER right_type.type = true then
               common_numeric_type dflt left_type right_type = .ok res.new_left_type
               ∧ common_numeric_type dflt left_type right_type = .ok res.new_right_type
             else res.new_left_type = left_type ∧ res.new_right_type = right_type)) := by
  have hlogic : IS_LOGIC op = false := by cases op <;> simp_all [IS_COMPARISON, IS_LOGIC]
  by_cases hs : IS_STRING left_type.type = IS_STRING right_type.type
  · by_cases hn : IS_NUMBER left_type.type = IS_NUMBER right_type.type
    · cases hnl : IS_NUMBER left_type.type
      · have hnr : IS_NUMBER right_type.type = false := by rw [← hn, hnl]
        cases hsl : IS_STRING left_type.type <;>
          have hsr := hs <;> rw [hsl] at hsr <;>
          simp [analyze_type_info, hlogic, hop, hnl, hnr, hsl, ← hsr]
      · have hnr : IS_NUMBER right_type.type = true := by rw [← hn, hnl]
        obtain ⟨r, hr⟩ := common_numeric_type_returns dflt left_type right_type hnl hnr
        cases hsl : IS_STRING left_type.type <;>
          have hsr := hs <;> rw [hsl] at hsr <;>
          simp [analyze_type_info, hlogic, hop, hnl, hnr, hsl, ← hsr, hr]
    · have hne : IS_NUMBER left_type.type = !IS_NUMBER right_type.type := by
        cases h1 : IS_NUMBER left_type.type <;> cases h2 : IS_NUMBER right_type.type <;>
          simp_all
      cases hsl : IS_STRING left_type.type <;>
        have hsr := hs <;> rw [hsl] at hsr <;>
        cases h2 : IS_NUMBER right_type.type <;>
        simp [analyze_type_info, hlogic, hop, hne, h2, hsl, ← hsr]
  · have hne : IS_STRING left_type.type = !IS_STRING right_type.type := by
      cases h1 : IS_STRING left_type.type <;> cases h2 : IS_STRING right_type.type <;>
        simp_all
    cases h2 : IS_STRING right_type.type <;>
      simp [analyze_type_info, hlogic, hop, hne, h2]

/-- Witness for `analyze_type_info_comparison`: `INT < FLOAT` is analysed to BOOLEAN with both
sides FLOAT. -/
theorem analyze_type_info_comparison_witness :
    ∃ res, analyze_type_info ⟨.kBOOLEAN, 0, 0⟩ .kLT ⟨.kINT, 0, 0⟩ ⟨.kFLOAT, 0, 0⟩ = .ok res
      ∧ res.result_type.type = .kBOOLEAN
      ∧ (if IS_NUMBER SQLTypes.kINT = true ∧ IS_NUMBER SQLTypes.kFLOAT = true then
           common_numeric_type ⟨.kBOOLEAN, 0, 0⟩ ⟨.kINT, 0, 0⟩ ⟨.kFLOAT, 0, 0⟩
             = .ok res.new_left_type
           ∧ common_numeric_type ⟨.kBOOLEAN, 0, 0⟩ ⟨.kINT, 0, 0⟩ ⟨.kFLOAT, 0, 0⟩
             = .ok res.new_right_type
         else res.new_left_type = ⟨.kINT, 0, 0⟩ ∧ res.new_right_type = ⟨.kFLOAT, 0, 0⟩) :=
  (analyze_type_info_comparison ⟨.kBOOLEAN, 0, 0⟩ .kLT ⟨.kINT, 0, 0⟩ ⟨.kFLOAT, 0, 0⟩ rfl).2
    (by decide)

/-- C7: for an arithmetic operator, `analyze_type_info` fails if and only if at least one
operand is non-numeric, and otherwise it returns with the result type, `new_left` and
`new_right` all equal to the value of `common_numeric_type left right`. -/
theorem analyze_type_info_arithmetic (dflt : SQLTypeInfo) (op : SQLOps)
    (left_type right_type : SQLTypeInfo) (hop : IS_ARITHMETIC op = true) :
    ((∃ e, analyze_type_info dflt op left_type right_type = .error e) ↔
        (IS_NUMBER left_type.type = false ∨ IS_NUMBER right_type.type = false))
    ∧ (¬ (IS_NUMBER left_type.type = false ∨ IS_NUMBER right_type.type = false) →
        ∃ common_type, common_numeric_type dflt left_type right_type = .ok common_type
          ∧ analyze_type_info dflt op left_type right_type
              = .ok ⟨common_type, common_type, common_type⟩) := by
  have hlogic : IS_LOGIC op = false := by cases op <;> simp_all [IS_ARITHMETIC, IS_LOGIC]
  have hcmp : IS_COMPARISON op = false := by
    cases op <;> simp_all [IS_ARITHMETIC, IS_COMPARISON]
  cases hl : IS_NUMBER left_type.type
  · simp [analyze_type_info, hlogic, hcmp, hop, hl]
  · cases hr : IS_NUMBER right_type.type
    · simp [analyze_type_info, hlogic, hcmp, hop, hl, hr]
    · obtain ⟨r, hcommon⟩ := common_numeric_type_returns dflt left_type right_type hl hr
      simp [analyze_type_info, hlogic, hcmp, hop, hl, hr, hcommon]

/-- Witness for `analyze_type_info_arithmetic`: `INT + NUMERIC(10,4)` is analysed to
NUMERIC(14,4) on both sides and in the result. -/
theorem analyze_type_info_arithmetic_witness :
    ∃ common_type,
      common_numeric_type ⟨.kBOOLEAN, 0, 0⟩ ⟨.kINT, 0, 0⟩ ⟨.kNUMERIC, 10, 4⟩ = .ok common_type
      ∧ analyze_type_info ⟨.kBOOLEAN, 0, 0⟩ .kPLUS ⟨.kINT, 0, 0⟩ ⟨.kNUMERIC, 10, 4⟩
          = .ok ⟨common_type, common_type, common_type⟩ :=
  (analyze_type_info_arithmetic ⟨.kBOOLEAN, 0, 0⟩ .kPLUS ⟨.kINT, 0, 0⟩ ⟨.kNUMERIC, 10, 4⟩
    rfl).2 (by decide)

/-! ## Theorems: constant cast folding -/

/-- When `cast_number` returns, the constant carries the target type. -/
theorem cast_number_returned_type_info (fc : FloatOps) (c self : Constant) (t : SQLTypeInfo)
    (h : c.cast_number fc t = .returned self) : self.type_info = t := by
  unfold Constant.cast_number at h
  repeat' split at h
  all_goals first
    | (cases h; rfl)
    | (exfalso; exact CastResult.noConfusion h)

/-- A numeric constant cast to an integer or floating kind: `cast_number` returns. -/
theorem cast_number_returns (fc : FloatOps) (c : Constant) (t : SQLTypeInfo)
    (hc : IS_NUMBER c.type_info.type = true) (ht : IS_NUMBER t.type = true)
    (hfix : is_fixed_kind t.type = false) :
    ∃ self, c.cast_number fc t = .returned self := by
  obtain ⟨⟨tc, dc, sc⟩, n, d⟩ := c
  obtain ⟨tt, dt, st⟩ := t
  cases tc <;> cases tt <;> simp_all [Constant.cast_number, IS_NUMBER, is_fixed_kind]

/-- When `cast_string` returns, the constant carries the target type. -/
theorem cast_string_returned_type_info (c self : Constant) (t : SQLTypeInfo)
    (h : c.cast_string t = .returned self) : self.type_info = t := by
  unfold Constant.cast_string at h
  dsimp only at h
  repeat' split at h
  all_goals first
    | (cases h; rfl)
    | (exfalso; exact CastResult.noConfusion h)

/-- C8 (counterexample): the non-null INT constant 42 cast to CHAR(3) is returned wrapped in a
CAST operator and keeps the type INT, so its `type_info` is not the target type. -/
theorem add_cast_constant_type_info_not_always_target :
    ¬ (∀ (fc : FloatOps) (c : Constant) (t : SQLTypeInfo) (self : Constant) (result : Expr),
        c.add_cast fc t = .returned self result → self.type_info = t) := by
  intro h
  have h1 := h FloatOps.zero ⟨⟨.kINT, 0, 0⟩, false, Datum.of_int 42⟩ ⟨.kCHAR, 3, 0⟩
    ⟨⟨.kINT, 0, 0⟩, false, Datum.of_int 42⟩
    (.UOper ⟨.kCHAR, 3, 0⟩ .kCAST (.Constant ⟨⟨.kINT, 0, 0⟩, false, Datum.of_int 42⟩)) rfl
  revert h1
  decide

/-- C8 (amended): whenever `add_cast t` returns, the expression it returns has type `t`; it is
the constant itself, retyped to `t`, when the constant is null, or both types are numeric, or
both are string types, or `t` already is its type, and otherwise it is a new CAST operator of
type `t` over the constant, which is left unchanged.  `add_cast` returns whenever the constant
is null, or the two types are neither both numeric nor both strings, or both are numeric and
the target is an integer or floating kind, or both are strings and the target is TEXT or the
payload is terminated. -/
theorem add_cast_type_info (fc : FloatOps) (c : Constant) (t : SQLTypeInfo) :
    (∀ self result, c.add_cast fc t = .returned self result →
        result.get_type_info = t
        ∧ (if c.is_null = true
              ∨ (IS_NUMBER t.type = true ∧ IS_NUMBER c.type_info.type = true)
              ∨ (IS_STRING t.type = true ∧ IS_STRING c.type_info.type = true)
              ∨ t = c.type_info then
             self.type_info = t ∧ result = .Constant self
           else self = c ∧ result = .UOper t .kCAST (.Constant c)))
    ∧ ((c.is_null = true
          ∨ (¬ (IS_NUMBER t.type = true ∧ IS_NUMBER c.type_info.type = true)
              ∧ ¬ (IS_STRING t.type = true ∧ IS_STRING c.type_info.type = true))
          ∨ (IS_NUMBER t.type = true ∧ IS_NUMBER c.type_info.type = true
              ∧ is_fixed_kind t.type = false)
          ∨ (IS_STRING t.type = true ∧ IS_STRING c.type_info.type = true
              ∧ (t.type = .kTEXT ∨ (c_strlen c.constval.pointerval).isSome = true))) →
        ∃ self result, c.add_cast fc t = .returned self result) := by
  have hexcl : ∀ k : SQLTypes, IS_NUMBER k = true → IS_STRING k = false := by
    intro k; cases k <;> simp [IS_NUMBER, IS_STRING]
  constructor
  · intro self result h
    unfold Constant.add_cast at h
    cases hnull : c.is_null
    · rw [hnull] at h
      simp only [Bool.false_eq_true, if_false] at h
      by_cases hnum : IS_NUMBER t.type = true ∧ IS_NUMBER c.type_info.type = true
      · simp only [hnum.1, hnum.2, Bool.and_self, if_true] at h
        cases hcast : c.cast_number fc t with
        | returned s =>
          rw [hcast] at h
          have hs := cast_number_returned_type_info fc c s t hcast
          cases h
          simp [Expr.get_type_info, hs, hnum]
        | assert_false s => rw [hcast] at h; cases h
        | undefined_read s => rw [hcast] at h; cases h
      · have hnum2 : (IS_NUMBER t.type && IS_NUMBER c.type_info.type) = false := by
          cases h1 : IS_NUMBER t.type <;> cases h2 : IS_NUMBER c.type_info.type <;> simp_all
        simp only [hnum2, Bool.false_eq_true, if_false] at h
        by_cases hstr : IS_STRING t.type = true ∧ IS_STRING c.type_info.type = true
        · simp only [hstr.1, hstr.2, Bool.and_self, if_true] at h
          cases hcast : c.cast_string t with
          | returned s =>
            rw [hcast] at h
            have hs := cast_string_returned_type_info c s t hcast
            cases h
            simp [Expr.get_type_info, hs, hstr]
          | assert_false s => rw [hcast] at h; cases h
          | undefined_read s => rw [hcast] at h; cases h
        · have hstr2 : (IS_STRING t.type && IS_STRING c.type_info.type) = false := by
            cases h1 : IS_STRING t.type <;> cases h2 : IS_STRING c.type_info.type <;> simp_all
          simp only [hstr2, Bool.false_eq_true, if_false, Constant.expr_add_cast] at h
          by_cases heq : t = c.type_info
          · simp only [heq, if_true] at h
            cases h
            simp [Expr.get_type_info, heq]
          · simp only [heq, if_false] at h
            cases h
            simp [Expr.get_type_info, heq, hnum, hstr]
    · rw [hnull] at h
      simp only [if_true] at h
      cases h
      simp [Expr.get_type_info]
  · intro hc
    unfold Constant.add_cast
    cases hnull : c.is_null
    · simp only [Bool.false_eq_true, if_false]
      rcases hc with hc | ⟨hnum, hstr⟩ | ⟨hn1, hn2, hfix⟩ | ⟨hs1, hs2, hterm⟩
      · rw [hnull] at hc; cases hc
      · have hnum2 : (IS_NUMBER t.type && IS_NUMBER c.type_info.type) = false := by
          cases h1 : IS_NUMBER t.type <;> cases h2 : IS_NUMBER c.type_info.type <;> simp_all
        have hstr2 : (IS_STRING t.type && IS_STRING c.type_info.type) = false := by
          cases h1 : IS_STRING t.type <;> cases h2 : IS_STRING c.type_info.type <;> simp_all
        simp only [hnum2, hstr2, Bool.false_eq_true, if_false, Constant.expr_add_cast]
        by_cases heq : t = c.type_info
        · exact ⟨_, _, by rw [if_pos heq]⟩
        · exact ⟨_, _, by rw [if_neg heq]⟩
      · obtain ⟨s, hs⟩ := cast_number_returns fc c t hn2 hn1 hfix
        simp only [hn1, hn2, Bool.and_self, if_true, hs]
        exact ⟨_, _, rfl⟩
      · have hnum2 : (IS_NUMBER t.type && IS_NUMBER c.type_info.type) = false := by
          cases h1 : IS_NUMBER t.type
          · rfl
          · rw [hexcl _ h1] at hs1; cases hs1
        simp only [hnum2, hs1, hs2, Bool.and_self, Bool.false_eq_true, if_false, if_true]
        unfold Constant.cast_string
        dsimp only
        rcases hterm with htext | hlen
        · simp only [htext, if_true]
          exact ⟨_, _, rfl⟩
        · by_cases htext : t.type = .kTEXT
          · simp only [htext, if_true]
            exact ⟨_, _, rfl⟩
          · simp only [htext, if_false]
            cases hl : c_strlen c.constval.pointerval with
            | none => rw [hl] at hlen; cases hlen
            | some len =>
              dsimp only
              by_cases hlt : toSizeT t.dimension < len
              · simp only [hlt, if_true]
                exact ⟨_, _, rfl⟩
              · simp only [hlt, if_false]
                exact ⟨_, _, rfl⟩
    · simp only [if_true]
      exact ⟨_, _, rfl⟩

/-- Witness for `add_cast_type_info`: the non-null INT constant 42 cast to BIGINT is returned
as a constant of type BIGINT. -/
theorem add_cast_type_info_witness :
    Expr.get_type_info
        (.Constant ⟨⟨.kBIGINT, 0, 0⟩, false, { Datum.of_int 42 with bigintval := 42 }⟩)
      = ⟨.kBIGINT, 0, 0⟩
    ∧ ∃ self result,
        Constant.add_cast FloatOps.zero ⟨⟨.kINT, 0, 0⟩, false, Datum.of_int 42⟩ ⟨.kBIGINT, 0, 0⟩
          = .returned self result :=
  ⟨((add_cast_type_info FloatOps.zero ⟨⟨.kINT, 0, 0⟩, false, Datum.of_int 42⟩
        ⟨.kBIGINT, 0, 0⟩).1
      ⟨⟨.kBIGINT, 0, 0⟩, false, { Datum.of_int 42 with bigintval := 42 }⟩ _ rfl).1,
   (add_cast_type_info FloatOps.zero ⟨⟨.kINT, 0, 0⟩, false, Datum.of_int 42⟩
        ⟨.kBIGINT, 0, 0⟩).2
      (Or.inr (Or.inr (Or.inl ⟨rfl, rfl, rfl⟩)))⟩

/-- A value inside the 64-bit range is left alone by `toInt64`. -/
theorem toInt64_of_range (x : Int) (hlo : -2 ^ 63 ≤ x) (hhi : x < 2 ^ 63) : toInt64 x = x := by
  unfold toInt64
  rw [Int.emod_eq_of_lt (by omega) (by omega)]
  omega

/-- The multiplication loop: as long as `v * 10 ^ n` fits in 64 bits, `n` steps `*= 10`
compute exactly `v * 10 ^ n`. -/
theorem iterate_mul10 (n : Nat) (v : Int)
    (hlo : -2 ^ 63 ≤ v * 10 ^ n) (hhi : v * 10 ^ n < 2 ^ 63) :
    Nat.iterate mul10 n v = v * 10 ^ n := by
  induction n generalizing v with
  | zero => simp
  | succ n ih =>
    have hpow : (1 : Int) ≤ 10 ^ n := one_le_pow₀ (by norm_num)
    have hstep : v * 10 ^ (n + 1) = v * 10 * 10 ^ n := by ring
    rw [hstep] at hlo hhi
    have h10 : mul10 v = v * 10 := by
      unfold mul10
      apply toInt64_of_range
      · rcases le_or_lt 0 v with hv | hv
        · have : (0 : Int) ≤ v * 10 := by omega
          omega
        · have : v * 10 * 10 ^ n ≤ v * 10 * 1 :=
            mul_le_mul_of_nonpos_left hpow (by omega)
          omega
      · rcases le_or_lt 0 v with hv | hv
        · have : v * 10 * 1 ≤ v * 10 * 10 ^ n :=
            mul_le_mul_of_nonneg_left hpow (by omega)
          omega
        · have : v * 10 < 0 := by omega
          omega
    rw [Function.iterate_succ_apply, h10, ih (v * 10) hlo hhi, hstep]

/-- Truncating division by two natural numbers in turn is truncating division by their
product. -/
theorem tdiv_tdiv_natCast (v : Int) (a b : Nat) :
    (v.tdiv a).tdiv b = v.tdiv ((a * b : Nat) : Int) := by
  rcases Int.eq_nat_or_neg v with ⟨m, rfl | rfl⟩
  · rw [← Int.ofNat_tdiv, ← Int.ofNat_tdiv, ← Int.ofNat_tdiv, Nat.div_div_eq_div_mul]
  · rw [Int.neg_tdiv, Int.neg_tdiv, Int.neg_tdiv, ← Int.ofNat_tdiv, ← Int.ofNat_tdiv,
      ← Int.ofNat_tdiv, Nat.div_div_eq_div_mul]

/-- The division loop: `n` steps `/= 10` compute the quotient of `v` by `10 ^ n` truncated
toward zero, for negative `v` as well. -/
theorem iterate_div10 (n : Nat) (v : Int) :
    Nat.iterate div10 n v = v.tdiv (10 ^ n) := by
  induction n generalizing v with
  | zero => simp [Int.tdiv_one]
  | succ n ih =>
    rw [Function.iterate_succ_apply, ih (div10 v)]
    unfold div10
    have h := tdiv_tdiv_natCast v 10 (10 ^ n)
    push_cast at h
    rw [h, pow_succ, mul_comm]

/-- C9 (evaluation at the failing input): the non-null INT constant 42 cast to NUMERIC(10,3):
the payload `bigintval` becomes 42000, and control then runs into `assert(false)`; `add_cast`
does not return and `type_info` is still INT. -/
theorem add_cast_int_to_numeric_reaches_assert (fc : FloatOps) :
    Constant.add_cast fc ⟨⟨.kINT, 0, 0⟩, false, Datum.of_int 42⟩ ⟨.kNUMERIC, 10, 3⟩
      = .assert_false ⟨⟨.kINT, 0, 0⟩, false, { Datum.of_int 42 with bigintval := 42000 }⟩ := by
  rfl

/-- Every non-null integer constant cast to a NUMERIC/DECIMAL type ends in `assert(false)`
and still carries its source type there. -/
theorem add_cast_integer_to_fixed_reaches_assert (fc : FloatOps) (c : Constant)
    (t : SQLTypeInfo) (hnull : c.is_null = false)
    (hc : is_integer_kind c.type_info.type = true) (ht : is_fixed_kind t.type = true) :
    ∃ self, c.add_cast fc t = .assert_false self ∧ self.type_info = c.type_info := by
  obtain ⟨⟨tc, dc, sc⟩, n, d⟩ := c
  obtain ⟨tt, dt, st⟩ := t
  simp only at hc ht hnull
  subst hnull
  cases tc <;> cases tt <;>
    simp_all [Constant.add_cast, Constant.cast_number, IS_NUMBER, is_fixed_kind,
      is_integer_kind]

/-- A non-null BIGINT constant with payload `v` cast to a NUMERIC/DECIMAL type of scale `s`,
where `v * 10 ^ s` fits in 64 bits: `bigintval` holds `v * 10 ^ s` when control reaches
`assert(false)`. -/
theorem add_cast_bigint_to_fixed (fc : FloatOps) (c : Constant) (t : SQLTypeInfo) (s : Nat)
    (hnull : c.is_null = false) (hc : c.type_info.type = .kBIGINT)
    (ht : is_fixed_kind t.type = true) (hs : t.scale = s)
    (hlo : -2 ^ 63 ≤ c.constval.bigintval * 10 ^ s)
    (hhi : c.constval.bigintval * 10 ^ s < 2 ^ 63) :
    c.add_cast fc t
      = .assert_false
          { c with constval := { c.constval with bigintval := c.constval.bigintval * 10 ^ s } } := by
  obtain ⟨⟨tc, dc, sc⟩, n, d⟩ := c
  obtain ⟨tt, dt, st⟩ := t
  simp only at hc hs hnull hlo hhi
  subst hc hs hnull
  cases tt <;> simp_all [Constant.add_cast, Constant.cast_number, IS_NUMBER, is_fixed_kind,
    for_loop, iterate_mul10]

/-- C10: a non-null NUMERIC/DECIMAL constant with payload `v` and scale `s ≥ 0`: cast to
BIGINT, `add_cast` returns the constant with `bigintval` the quotient of `v` by `10 ^ s`
truncated toward zero; cast to INT or SMALLINT, with `intval` or `smallintval` that quotient
narrowed to 32 or 16 bits; in each case `type_info` is the target type. -/
theorem add_cast_fixed_to_integer (fc : FloatOps) (c : Constant) (t : SQLTypeInfo) (s : Nat)
    (hnull : c.is_null = false) (hc : is_fixed_kind c.type_info.type = true)
    (hs : c.type_info.scale = s) :
    (t.type = .kBIGINT →
      ∃ self, c.add_cast fc t = .returned self (.Constant self) ∧ self.type_info = t
        ∧ self.constval.bigintval = c.constval.bigintval.tdiv (10 ^ s))
    ∧ (t.type = .kINT →
      ∃ self, c.add_cast fc t = .returned self (.Constant self) ∧ self.type_info = t
        ∧ self.constval.intval = toInt32 (c.constval.bigintval.tdiv (10 ^ s)))
    ∧ (t.type = .kSMALLINT →
      ∃ self, c.add_cast fc t = .returned self (.Constant self) ∧ self.type_info = t
        ∧ self.constval.smallintval = toInt16 (c.constval.bigintval.tdiv (10 ^ s))) := by
  obtain ⟨⟨tc, dc, sc⟩, n, d⟩ := c
  obtain ⟨tt, dt, st⟩ := t
  simp only at hc hs hnull
  subst hs hnull
  refine ⟨?_, ?_, ?_⟩ <;> intro htt <;> simp only at htt <;> subst htt <;>
    cases tc <;>
    simp_all [Constant.add_cast, Constant.cast_number, IS_NUMBER, is_fixed_kind, for_loop,
      iterate_div10]

/-- Witness for `add_cast_fixed_to_integer`: the NUMERIC(10,2) constant with payload -12345
(the value -123.45) cast to BIGINT holds -123. -/
theorem add_cast_fixed_to_integer_witness :
    ∃ self,
      Constant.add_cast FloatOps.zero ⟨⟨.kNUMERIC, 10, 2⟩, false, Datum.of_int (-12345)⟩
          ⟨.kBIGINT, 0, 0⟩
        = .returned self (.Constant self)
      ∧ self.type_info = ⟨.kBIGINT, 0, 0⟩
      ∧ self.constval.bigintval = (Datum.of_int (-12345)).bigintval.tdiv (10 ^ 2) :=
  (add_cast_fixed_to_integer FloatOps.zero ⟨⟨.kNUMERIC, 10, 2⟩, false, Datum.of_int (-12345)⟩
    ⟨.kBIGINT, 0, 0⟩ 2 rfl rfl rfl).1 rfl

/-! ## Theorems: string casts -/

/-- A buffer cut before or at the end of its string and followed by an unwritten byte holds no
terminated string. -/
theorem c_strlen_take_unterminated (buf : List (Option Nat)) (len n : Nat)
    (hlen : c_strlen buf = some len) (hn : n ≤ len) :
    c_strlen (buf.take n ++ [none]) = none := by
  induction buf generalizing len n with
  | nil => simp [c_strlen] at hlen
  | cons b rest ih =>
    cases n with
    | zero => simp [c_strlen]
    | succ m =>
      match b, hlen with
      | none, hlen => simp [c_strlen] at hlen
      | some 0, hlen =>
        simp only [c_strlen, Option.some.injEq] at hlen
        omega
      | some (x + 1), hlen =>
        simp only [c_strlen, Option.map_eq_some'] at hlen
        obtain ⟨l, hl, hl2⟩ := hlen
        have := ih l m hl (by omega)
        simp [c_strlen, this]

/-- C11 (evaluation at the failing input): the CHAR constant "HELLO" cast to CHAR(3): the new
buffer has four bytes, `strncpy` writes 'H', 'E', 'L' into the first three and nothing writes
the fourth, so the payload holds no terminator and is not a string of length 3. -/
theorem add_cast_hello_to_char3_unterminated (fc : FloatOps) :
    ∃ self,
      Constant.add_cast fc ⟨⟨.kCHAR, 5, 0⟩, false, Datum.of_string [72, 69, 76, 76, 79]⟩
          ⟨.kCHAR, 3, 0⟩
        = .returned self (.Constant self)
      ∧ self.type_info = ⟨.kCHAR, 3, 0⟩
      ∧ self.constval.pointerval = [some 72, some 69, some 76, none]
      ∧ c_strlen self.constval.pointerval = none
      ∧ c_string self.constval.pointerval ≠ some [72, 69, 76] :=
  ⟨⟨⟨.kCHAR, 3, 0⟩, false,
     { Datum.of_string [72, 69, 76, 76, 79] with
       pointerval := [some 72, some 69, some 76, none] }⟩,
   rfl, rfl, rfl, rfl, by decide⟩

/-- Whenever `cast_string` truncates (target not TEXT, `dimension` below the length of the
string), the buffer it leaves holds the first `dimension` bytes followed by an unwritten byte
and no terminator; the type is the target type. -/
theorem cast_string_truncation (c : Constant) (t : SQLTypeInfo) (len : Nat)
    (htext : t.type ≠ .kTEXT) (hlen : c_strlen c.constval.pointerval = some len)
    (hdim : toSizeT t.dimension < len) :
    c.cast_string t
      = .returned
          { c with
            constval :=
              { c.constval with
                pointerval := c.constval.pointerval.take (toSizeT t.dimension) ++ [none] }
            type_info := t }
    ∧ c_strlen (c.constval.pointerval.take (toSizeT t.dimension) ++ [none]) = none := by
  refine ⟨?_, c_strlen_take_unterminated _ len _ hlen (by omega)⟩
  simp [Constant.cast_string, htext, hlen, hdim]

/-- Whenever `cast_string` does not truncate (target TEXT, or `dimension` not below the length
of the string), the payload is unchanged and the type is the target type. -/
theorem cast_string_no_truncation (c : Constant) (t : SQLTypeInfo)
    (h : t.type = .kTEXT
      ∨ ∃ len, c_strlen c.constval.pointerval = some len ∧ ¬ toSizeT t.dimension < len) :
    c.cast_string t = .returned { c with type_info := t } := by
  rcases h with h | ⟨len, hlen, hdim⟩
  · simp [Constant.cast_string, h]
  · by_cases htext : t.type = .kTEXT
    · simp [Constant.cast_string, htext]
    · simp [Constant.cast_string, htext, hlen, hdim]

/-! ## Theorems: integer casts -/

/-- The narrowing casts are reduction modulo `2 ^ w` read as a signed `w`-bit integer. -/
theorem narrowing_is_wrap_signed (v : Int) :
    toInt16 v = wrap_signed 16 v ∧ toInt32 v = wrap_signed 32 v ∧ toInt64 v = wrap_signed 64 v :=
  ⟨rfl, rfl, rfl⟩

/-- C12: a non-null integer constant whose member holds `v` (a value of its kind), cast to an
integer kind of width `w`: `add_cast` returns the constant with the target type and with the
target member holding `v` reduced modulo `2 ^ w` read as a signed `w`-bit integer; that member
equals `v` exactly when `v` fits in `w` bits; and casting to an integer kind at least as wide
and back to the original kind gives back `v`. -/
theorem add_cast_integer_to_integer (fc : FloatOps) (c : Constant) (t : SQLTypeInfo)
    (hnull : c.is_null = false) (hc : is_integer_kind c.type_info.type = true)
    (ht : is_integer_kind t.type = true)
    (hv : fits_signed (integer_width c.type_info.type)
            (c.constval.integer_member c.type_info.type)) :
    ∃ self, c.add_cast fc t = .returned self (.Constant self)
      ∧ self.type_info = t
      ∧ self.constval.integer_member t.type
          = wrap_signed (integer_width t.type) (c.constval.integer_member c.type_info.type)
      ∧ (self.constval.integer_member t.type = c.constval.integer_member c.type_info.type
          ↔ fits_signed (integer_width t.type) (c.constval.integer_member c.type_info.type))
      ∧ (integer_width c.type_info.type ≤ integer_width t.type →
          ∃ back, self.add_cast fc c.type_info = .returned back (.Constant back)
            ∧ back.type_info = c.type_info
            ∧ back.constval.integer_member c.type_info.type
                = c.constval.integer_member c.type_info.type) := by
  obtain ⟨⟨tc, dc, sc⟩, n, d⟩ := c
  obtain ⟨tt, dt, st⟩ := t
  simp only at hc ht hnull hv
  subst hnull
  cases tc <;> simp [is_integer_kind] at hc <;>
    cases tt <;> simp [is_integer_kind] at ht <;>
    simp only [fits_signed, integer_width, Datum.integer_member] at hv <;>
    norm_num at hv <;>
    simp [Constant.add_cast, Constant.cast_number, IS_NUMBER, Datum.integer_member,
      integer_width, wrap_signed, fits_signed, toInt16, toInt32, toInt64] <;>
    omega

/-- Witness for `add_cast_integer_to_integer`: the INT constant 70000 cast to SMALLINT holds
4464, which is 70000 reduced modulo 65536. -/
theorem add_cast_integer_to_integer_witness :
    ∃ self,
      Constant.add_cast FloatOps.zero ⟨⟨.kINT, 0, 0⟩, false, Datum.of_int 70000⟩
          ⟨.kSMALLINT, 0, 0⟩
        = .returned self (.Constant self)
      ∧ self.type_info = ⟨.kSMALLINT, 0, 0⟩
      ∧ self.constval.integer_member .kSMALLINT = wrap_signed 16 70000 := by
  obtain ⟨self, h1, h2, h3, -⟩ :=
    add_cast_integer_to_integer FloatOps.zero ⟨⟨.kINT, 0, 0⟩, false, Datum.of_int 70000⟩
      ⟨.kSMALLINT, 0, 0⟩ rfl rfl rfl ⟨by decide, by decide⟩
  exact ⟨self, h1, h2, h3⟩

/-! ## Theorems: `deep_copy` -/

/-- The buffer that `strcpy` fills holds the string that was copied. -/
theorem c_string_c_buffer (buf : List (Option Nat)) (bytes : List Nat)
    (h : c_string buf = some bytes) : c_string (c_buffer bytes) = some bytes := by
  induction buf generalizing bytes with
  | nil => simp [c_string] at h
  | cons b rest ih =>
    match b, h with
    | none, h => simp [c_string] at h
    | some 0, h =>
      simp only [c_string, Option.some.injEq] at h
      subst h
      simp [c_buffer, c_string]
    | some (x + 1), h =>
      simp only [c_string, Option.map_eq_some'] at h
      obtain ⟨bs, hbs, rfl⟩ := h
      have := ih bs hbs
      simp only [c_buffer] at this
      simp [c_buffer, c_string, this]

/-- A constant whose payload is a terminated string is copied, and the copy is structurally
equal to it. -/
theorem constant_deep_copy_structurally_equal (c : Constant)
    (hstr : c.string_terminated = true) :
    ∃ d, c.deep_copy = .ok d ∧ c.structurally_equal d = true := by
  unfold Constant.deep_copy
  by_cases hs : (IS_STRING c.type_info.type && !c.is_null) = true
  · simp only [Constant.string_terminated, hs, Bool.not_true, Bool.false_or] at hstr
    obtain ⟨bytes, hb⟩ := Option.isSome_iff_exists.mp hstr
    refine ⟨⟨c.type_info, c.is_null, { c.constval with pointerval := c_buffer bytes }⟩, ?_, ?_⟩
    · simp [hs, hb]
    · simp [Constant.structurally_equal, hs, hb, c_string_c_buffer _ _ hb]
  · refine ⟨⟨c.type_info, c.is_null, c.constval⟩, ?_, ?_⟩
    · simp [hs]
    · simp [Constant.structurally_equal, hs]

/-- C18: an expression that contains no `Subquery` node (and whose string constants hold
terminated strings): `deep_copy` returns, and what it returns is structurally equal to the
expression: same variant, same type, same scalar fields, the same string in every non-null
string constant, and structurally equal children in the same order, the value list of an
`InValues` and the optional escape expression of a `LikeExpr` included. -/
theorem deep_copy_structurally_equal (e : Expr) (hsub : e.has_subquery = false)
    (hstr : e.strings_terminated = true) :
    ∃ d, e.deep_copy = .ok d ∧ e.structurally_equal d = true := by
  induction e using Expr.rec
    (motive_2 := fun l => Expr.has_subquery_list l = false →
      Expr.strings_terminated_list l = true →
      ∃ d, Expr.deep_copy_list l = .ok d ∧ Expr.structurally_equal_list l d = true)
    (motive_3 := fun o => Expr.has_subquery_optional o = false →
      Expr.strings_terminated_optional o = true →
      ∃ d, Expr.deep_copy_optional o = .ok d ∧ Expr.structurally_equal_optional o d = true)
    with
  | ColumnVar t a b c => exact ⟨_, rfl, by simp [Expr.structurally_equal]⟩
  | Var t a b i v => exact ⟨_, rfl, by simp [Expr.structurally_equal]⟩
  | Constant c =>
    simp only [Expr.strings_terminated] at hstr
    obtain ⟨d, hd, heq⟩ := constant_deep_copy_structurally_equal c hstr
    exact ⟨.Constant d, by simp [Expr.deep_copy, hd], by simp [Expr.structurally_equal, heq]⟩
  | UOper t op operand ih =>
    simp only [Expr.has_subquery] at hsub
    simp only [Expr.strings_terminated] at hstr
    obtain ⟨d, hd, heq⟩ := ih hsub hstr
    exact ⟨.UOper t op d, by simp [Expr.deep_copy, hd], by simp [Expr.structurally_equal, heq]⟩
  | BinOper t op q l r ihl ihr =>
    simp only [Expr.has_subquery, Bool.or_eq_false_iff] at hsub
    simp only [Expr.strings_terminated, Bool.and_eq_true] at hstr
    obtain ⟨dl, hdl, heql⟩ := ihl hsub.1 hstr.1
    obtain ⟨dr, hdr, heqr⟩ := ihr hsub.2 hstr.2
    exact ⟨.BinOper t op q dl dr, by simp [Expr.deep_copy, hdl, hdr],
      by simp [Expr.structurally_equal, heql, heqr]⟩
  | Subquery t => simp [Expr.has_subquery] at hsub
  | InValues arg vl iha ihl =>
    simp only [Expr.has_subquery, Bool.or_eq_false_iff] at hsub
    simp only [Expr.strings_terminated, Bool.and_eq_true] at hstr
    obtain ⟨da, hda, heqa⟩ := iha hsub.1 hstr.1
    obtain ⟨dl, hdl, heql⟩ := ihl hsub.2 hstr.2
    exact ⟨.InValues da dl, by simp [Expr.deep_copy, hda, hdl],
      by simp [Expr.structurally_equal, heqa, heql]⟩
  | LikeExpr arg like esc iha ihl ihe =>
    simp only [Expr.has_subquery, Bool.or_eq_false_iff] at hsub
    simp only [Expr.strings_terminated, Bool.and_eq_true] at hstr
    obtain ⟨da, hda, heqa⟩ := iha hsub.1.1 hstr.1.1
    obtain ⟨dl, hdl, heql⟩ := ihl hsub.1.2 hstr.1.2
    obtain ⟨de, hde, heqe⟩ := ihe hsub.2 hstr.2
    exact ⟨.LikeExpr da dl de, by simp [Expr.deep_copy, hda, hdl, hde],
      by simp [Expr.structurally_equal, heqa, heql, heqe]⟩
  | AggExpr t g arg dist idx ih =>
    simp only [Expr.has_subquery] at hsub
    simp only [Expr.strings_terminated] at hstr
    obtain ⟨d, hd, heq⟩ := ih hsub hstr
    exact ⟨.AggExpr t g d dist idx, by simp [Expr.deep_copy, hd],
      by simp [Expr.structurally_equal, heq]⟩
  | nil => exact ⟨[], rfl, by simp [Expr.structurally_equal_list]⟩
  | cons head tail ihh iht =>
    rename_i hsubl hstrl
    simp only [Expr.has_subquery_list, Bool.or_eq_false_iff] at hsubl
    simp only [Expr.strings_terminated_list, Bool.and_eq_true] at hstrl
    obtain ⟨dh, hdh, heqh⟩ := ihh hsubl.1 hstrl.1
    obtain ⟨dt, hdt, heqt⟩ := iht hsubl.2 hstrl.2
    exact ⟨dh :: dt, by simp [Expr.deep_copy_list, hdh, hdt],
      by simp [Expr.structurally_equal_list, heqh, heqt]⟩
  | none => exact ⟨none, rfl, by simp [Expr.structurally_equal_optional]⟩
  | some val ih =>
    rename_i hsubo hstro
    simp only [Expr.has_subquery_optional] at hsubo
    simp only [Expr.strings_terminated_optional] at hstro
    obtain ⟨d, hd, heq⟩ := ih hsubo hstro
    exact ⟨some d, by simp [Expr.deep_copy_optional, hd],
      by simp [Expr.structurally_equal_optional, heq]⟩

/-- Witness for `deep_copy_structurally_equal`: the predicate `a LIKE "HE"` over a column and a
string constant is copied. -/
theorem deep_copy_structurally_equal_witness :
    ∃ d,
      Expr.deep_copy
          (.LikeExpr (.ColumnVar ⟨.kTEXT, 0, 0⟩ 1 2 0)
            (.Constant ⟨⟨.kCHAR, 2, 0⟩, false, Datum.of_string [72, 69]⟩) none)
        = .ok d
      ∧ Expr.structurally_equal
          (.LikeExpr (.ColumnVar ⟨.kTEXT, 0, 0⟩ 1 2 0)
            (.Constant ⟨⟨.kCHAR, 2, 0⟩, false, Datum.of_string [72, 69]⟩) none) d = true :=
  deep_copy_structurally_equal _ (by decide) (by decide)

/-- The copy of a `Subquery` node runs into `assert(false)`. -/
theorem deep_copy_subquery (t : SQLTypeInfo) :
    Expr.deep_copy (.Subquery t) = .error .assert_false := rfl

/-! ## Theorems: predicate classification -/

/-- The lists after `group_predicates` are the lists before it followed by what
`group_predicates` puts into empty lists. -/
theorem group_predicates_append (p : Expr) (lists : PredicateLists) :
    p.group_predicates lists =
      ⟨lists.scan_predicates ++ (p.group_predicates PredicateLists.empty).scan_predicates,
       lists.join_predicates ++ (p.group_predicates PredicateLists.empty).join_predicates,
       lists.const_predicates ++ (p.group_predicates PredicateLists.empty).const_predicates⟩ := by
  induction p using Expr.rec (motive_2 := fun _ => True) (motive_3 := fun _ => True)
    generalizing lists with
  | BinOper t op q l r ihl ihr =>
    by_cases hop : op = .kAND
    · simp only [Expr.group_predicates, hop, if_true]
      rw [ihr (l.group_predicates lists), ihl lists,
        ihr (l.group_predicates PredicateLists.empty)]
      simp [PredicateLists.empty]
    · simp only [Expr.group_predicates, hop, if_false, push_by_rte_count,
        PredicateLists.empty]
      split_ifs <;> simp
  | ColumnVar t a b c =>
    simp only [Expr.group_predicates, PredicateLists.empty]
    split_ifs <;> simp
  | nil => trivial
  | cons _ _ _ _ => trivial
  | none => trivial
  | some _ _ => trivial
  | _ =>
    simp only [Expr.group_predicates, push_by_rte_count, PredicateLists.empty]
    split_ifs <;> simp

/-- What `group_predicates` puts into empty lists for a node that is not a conjunction: nothing
for a bare column of a type other than BOOLEAN, and otherwise the node itself, in exactly one
of the three lists. -/
theorem group_predicates_single (e : Expr) (hconj : e.is_conjunction = false) :
    (e.is_non_boolean_column = true
      ∧ (e.group_predicates PredicateLists.empty).scan_predicates = []
      ∧ (e.group_predicates PredicateLists.empty).join_predicates = []
      ∧ (e.group_predicates PredicateLists.empty).const_predicates = [])
    ∨ (e.is_non_boolean_column = false
      ∧ (((e.group_predicates PredicateLists.empty).scan_predicates = [e]
          ∧ (e.group_predicates PredicateLists.empty).join_predicates = []
          ∧ (e.group_predicates PredicateLists.empty).const_predicates = [])
        ∨ ((e.group_predicates PredicateLists.empty).scan_predicates = []
          ∧ (e.group_predicates PredicateLists.empty).join_predicates = [e]
          ∧ (e.group_predicates PredicateLists.empty).const_predicates = [])
        ∨ ((e.group_predicates PredicateLists.empty).scan_predicates = []
          ∧ (e.group_predicates PredicateLists.empty).join_predicates = []
          ∧ (e.group_predicates PredicateLists.empty).const_predicates = [e]))) := by
  cases e with
  | BinOper t op q l r =>
    have hop : op ≠ .kAND := by simpa [Expr.is_conjunction] using hconj
    right
    simp only [Expr.group_predicates, hop, if_false, push_by_rte_count,
      PredicateLists.empty, Expr.is_non_boolean_column]
    split_ifs <;> simp
  | ColumnVar t a b c =>
    by_cases ht : t.type = .kBOOLEAN
    · right
      simp [Expr.group_predicates, PredicateLists.empty, Expr.is_non_boolean_column, ht]
    · left
      simp [Expr.group_predicates, PredicateLists.empty, Expr.is_non_boolean_column, ht]
  | _ =>
    right
    simp only [Expr.group_predicates, push_by_rte_count, PredicateLists.empty,
      Expr.is_non_boolean_column]
    split_ifs <;> simp

/-- A node that is not a conjunction is its own single conjunct. -/
theorem conjuncts_of_not_conjunction (e : Expr) (hconj : e.is_conjunction = false) :
    e.conjuncts = [e] := by
  cases e with
  | BinOper t op q l r =>
    have hop : op ≠ .kAND := by simpa [Expr.is_conjunction] using hconj
    simp [Expr.conjuncts, hop]
  | _ => simp [Expr.conjuncts]

/-- For a node that is not a conjunction, the output lists, taken together, hold the node
once, or nothing when it is a bare column of a type other than BOOLEAN. -/
theorem group_predicates_perm_single (e : Expr) (hconj : e.is_conjunction = false) :
    List.Perm
      ((e.group_predicates PredicateLists.empty).scan_predicates
        ++ (e.group_predicates PredicateLists.empty).join_predicates
        ++ (e.group_predicates PredicateLists.empty).const_predicates)
      (e.conjuncts.filter (fun c => !c.is_non_boolean_column)) := by
  rw [conjuncts_of_not_conjunction _ hconj]
  rcases group_predicates_single _ hconj with ⟨h0, h1, h2, h3⟩ | ⟨h0, h | h | h⟩ <;>
    simp_all

/-- The output lists, taken together, hold each top-level conjunct once, bare columns of a
type other than BOOLEAN excepted. -/
theorem group_predicates_perm (p : Expr) :
    List.Perm
      ((p.group_predicates PredicateLists.empty).scan_predicates
        ++ (p.group_predicates PredicateLists.empty).join_predicates
        ++ (p.group_predicates PredicateLists.empty).const_predicates)
      (p.conjuncts.filter (fun c => !c.is_non_boolean_column)) := by
  induction p using Expr.rec (motive_2 := fun _ => True) (motive_3 := fun _ => True) with
  | BinOper t op q l r ihl ihr =>
    by_cases hop : op = .kAND
    · subst hop
      have h : (Expr.BinOper t .kAND q l r).group_predicates PredicateLists.empty
          = r.group_predicates (l.group_predicates PredicateLists.empty) := by
        simp [Expr.group_predicates]
      rw [h, group_predicates_append r]
      simp only [Expr.conjuncts, if_true, List.filter_append]
      rw [← Multiset.coe_eq_coe] at ihl ihr ⊢
      simp only [← Multiset.coe_add] at ihl ihr ⊢
      rw [← ihl, ← ihr]
      abel
    · exact group_predicates_perm_single _ (by simp [Expr.is_conjunction, hop])
  | nil => trivial
  | cons _ _ _ _ => trivial
  | none => trivial
  | some _ _ => trivial
  | _ => exact group_predicates_perm_single _ rfl

/-- A node found in one output list is a node that `group_predicates` puts in that list and
in no other. -/
theorem group_predicates_mem (p e : Expr) :
    (e ∈ (p.group_predicates PredicateLists.empty).scan_predicates →
      (e.group_predicates PredicateLists.empty).scan_predicates = [e]
      ∧ (e.group_predicates PredicateLists.empty).join_predicates = []
      ∧ (e.group_predicates PredicateLists.empty).const_predicates = [])
    ∧ (e ∈ (p.group_predicates PredicateLists.empty).join_predicates →
      (e.group_predicates PredicateLists.empty).scan_predicates = []
      ∧ (e.group_predicates PredicateLists.empty).join_predicates = [e]
      ∧ (e.group_predicates PredicateLists.empty).const_predicates = [])
    ∧ (e ∈ (p.group_predicates PredicateLists.empty).const_predicates →
      (e.group_predicates PredicateLists.empty).scan_predicates = []
      ∧ (e.group_predicates PredicateLists.empty).join_predicates = []
      ∧ (e.group_predicates PredicateLists.empty).const_predicates = [e]) := by
  have single : ∀ x : Expr, x.is_conjunction = false →
      (e ∈ (x.group_predicates PredicateLists.empty).scan_predicates →
        (e.group_predicates PredicateLists.empty).scan_predicates = [e]
        ∧ (e.group_predicates PredicateLists.empty).join_predicates = []
        ∧ (e.group_predicates PredicateLists.empty).const_predicates = [])
      ∧ (e ∈ (x.group_predicates PredicateLists.empty).join_predicates →
        (e.group_predicates PredicateLists.empty).scan_predicates = []
        ∧ (e.group_predicates PredicateLists.empty).join_predicates = [e]
        ∧ (e.group_predicates PredicateLists.empty).const_predicates = [])
      ∧ (e ∈ (x.group_predicates PredicateLists.empty).const_predicates →
        (e.group_predicates PredicateLists.empty).scan_predicates = []
        ∧ (e.group_predicates PredicateLists.empty).join_predicates = []
        ∧ (e.group_predicates PredicateLists.empty).const_predicates = [e]) := by
    intro x hx
    rcases group_predicates_single x hx with ⟨-, h1, h2, h3⟩ | ⟨-, ⟨h1, h2, h3⟩ | ⟨h1, h2, h3⟩ | ⟨h1, h2, h3⟩⟩ <;>
      rw [h1, h2, h3] <;>
      refine ⟨?_, ?_, ?_⟩ <;> intro hmem <;>
      simp only [List.mem_singleton, List.not_mem_nil] at hmem <;>
      subst hmem <;> exact ⟨h1, h2, h3⟩
  induction p using Expr.rec (motive_2 := fun _ => True) (motive_3 := fun _ => True) with
  | BinOper t op q l r ihl ihr =>
    by_cases hop : op = .kAND
    · subst hop
      have h : (Expr.BinOper t .kAND q l r).group_predicates PredicateLists.empty
          = r.group_predicates (l.group_predicates PredicateLists.empty) := by
        simp [Expr.group_predicates]
      rw [h, group_predicates_append r]
      simp only [List.mem_append]
      exact ⟨fun hm => hm.elim ihl.1 ihr.1, fun hm => hm.elim ihl.2.1 ihr.2.1,
        fun hm => hm.elim ihl.2.2 ihr.2.2⟩
    · exact single _ (by simp [Expr.is_conjunction, hop])
  | nil => trivial
  | cons _ _ _ _ => trivial
  | none => trivial
  | some _ _ => trivial
  | _ => exact single _ rfl

/-- C13 (counterexample): the predicate that is a bare INT column has itself as its only
top-level conjunct, and `group_predicates` puts it in no list. -/
theorem group_predicates_drops_non_boolean_column :
    ¬ (∀ p : Expr,
        List.Perm
          ((p.group_predicates PredicateLists.empty).scan_predicates
            ++ (p.group_predicates PredicateLists.empty).join_predicates
            ++ (p.group_predicates PredicateLists.empty).const_predicates)
          p.conjuncts) := by
  intro h
  have h1 := (h (int_column 1 1 0)).length_eq
  revert h1
  decide

/-- C13 (amended): the scan, join and constant lists that `group_predicates` fills from three
empty lists are pairwise disjoint, and together they hold each top-level conjunct of the
predicate exactly once, except that a conjunct that is a bare column of a type other than
BOOLEAN is in no list; for `t1.a = t2.b AND t1.c > 5 AND 1 = 1` the scan list is `[t1.c > 5]`,
the join list `[t1.a = t2.b]` and the constant list `[1 = 1]`. -/
theorem group_predicates_partition (p : Expr) :
    List.Perm
      ((p.group_predicates PredicateLists.empty).scan_predicates
        ++ (p.group_predicates PredicateLists.empty).join_predicates
        ++ (p.group_predicates PredicateLists.empty).const_predicates)
      (p.conjuncts.filter (fun c => !c.is_non_boolean_column))
    ∧ (∀ e, e ∈ (p.group_predicates PredicateLists.empty).scan_predicates →
        e ∉ (p.group_predicates PredicateLists.empty).join_predicates
        ∧ e ∉ (p.group_predicates PredicateLists.empty).const_predicates)
    ∧ (∀ e, e ∈ (p.group_predicates PredicateLists.empty).join_predicates →
        e ∉ (p.group_predicates PredicateLists.empty).const_predicates)
    ∧ (Expr.group_predicates
          (conjunction
            (conjunction (comparison .kEQ (int_column 1 1 0) (int_column 2 2 1))
              (comparison .kGT (int_column 1 3 0) (int_constant 5)))
            (comparison .kEQ (int_constant 1) (int_constant 1)))
          PredicateLists.empty).scan_predicates
        = [comparison .kGT (int_column 1 3 0) (int_constant 5)]
    ∧ (Expr.group_predicates
          (conjunction
            (conjunction (comparison .kEQ (int_column 1 1 0) (int_column 2 2 1))
              (comparison .kGT (int_column 1 3 0) (int_constant 5)))
            (comparison .kEQ (int_constant 1) (int_constant 1)))
          PredicateLists.empty).join_predicates
        = [comparison .kEQ (int_column 1 1 0) (int_column 2 2 1)]
    ∧ (Expr.group_predicates
          (conjunction
            (conjunction (comparison .kEQ (int_column 1 1 0) (int_column 2 2 1))
              (comparison .kGT (int_column 1 3 0) (int_constant 5)))
            (comparison .kEQ (int_constant 1) (int_constant 1)))
          PredicateLists.empty).const_predicates
        = [comparison .kEQ (int_constant 1) (int_constant 1)] := by
  refine ⟨group_predicates_perm p, ?_, ?_, rfl, rfl, rfl⟩
  · intro e he
    have h1 := (group_predicates_mem p e).1 he
    refine ⟨fun hj => ?_, fun hc => ?_⟩
    · have h2 := (group_predicates_mem p e).2.1 hj
      rw [h1.1] at h2
      exact List.cons_ne_nil _ _ h2.1
    · have h2 := (group_predicates_mem p e).2.2 hc
      rw [h1.1] at h2
      exact List.cons_ne_nil _ _ h2.1
  · intro e he hc
    have h1 := (group_predicates_mem p e).2.1 he
    have h2 := (group_predicates_mem p e).2.2 hc
    rw [h1.2.1] at h2
    exact List.cons_ne_nil _ _ h2.2.1

/-- Witness for `group_predicates_partition`: in `t1.a = t2.b AND t1.c > 5` the scan predicate
`t1.c > 5` is not among the join predicates. -/
theorem group_predicates_partition_witness :
    comparison .kGT (int_column 1 3 0) (int_constant 5)
      ∉ (Expr.group_predicates
          (conjunction (comparison .kEQ (int_column 1 1 0) (int_column 2 2 1))
            (comparison .kGT (int_column 1 3 0) (int_constant 5)))
          PredicateLists.empty).join_predicates :=
  ((group_predicates_partition
      (conjunction (comparison .kEQ (int_column 1 1 0) (int_column 2 2 1))
        (comparison .kGT (int_column 1 3 0) (int_constant 5)))).2.1
    (comparison .kGT (int_column 1 3 0) (int_constant 5))
    (by
      have h : (Expr.group_predicates
          (conjunction (comparison .kEQ (int_column 1 1 0) (int_column 2 2 1))
            (comparison .kGT (int_column 1 3 0) (int_constant 5)))
          PredicateLists.empty).scan_predicates
          = [comparison .kGT (int_column 1 3 0) (int_constant 5)] := rfl
      rw [h]
      exact List.mem_singleton.mpr rfl)).1

/-- The two ways of choosing the list agree: `push_by_rte_count` on a set picks the list that
`push_by_count` picks on the size of the set. -/
theorem push_by_rte_count_eq (this : Expr) (rte_idx_set : Finset Int)
    (lists : PredicateLists) :
    push_by_rte_count this rte_idx_set lists = push_by_count this rte_idx_set.card lists := by
  unfold push_by_rte_count push_by_count
  rcases h : rte_idx_set.card with _ | _ | n <;> simp

/-- C14 (counterexample): the node `t1.a IN (t2.b)` has `ColumnVar` leaves on two range-table
entries, and `group_predicates`, which consults the `arg` child only, puts it in the scan list,
not in the join list. -/
theorem group_predicates_in_values_ignores_value_list :
    ¬ (∀ (e : Expr) (lists : PredicateLists), e.is_classified_node = true →
        e.group_predicates lists = push_by_count e (e.collect_rte_idx ∅).card lists) := by
  intro h
  have h1 := congrArg PredicateLists.scan_predicates
    (h (.InValues (int_column 1 1 0) [int_column 2 2 1]) PredicateLists.empty rfl)
  have h2 : (Expr.group_predicates (.InValues (int_column 1 1 0) [int_column 2 2 1])
      PredicateLists.empty).scan_predicates
      = [.InValues (int_column 1 1 0) [int_column 2 2 1]] := rfl
  have h3 : (push_by_count (.InValues (int_column 1 1 0) [int_column 2 2 1])
      ((Expr.InValues (int_column 1 1 0) [int_column 2 2 1]).collect_rte_idx ∅).card
      PredicateLists.empty).scan_predicates = [] := rfl
  rw [h2, h3] at h1
  exact List.cons_ne_nil _ _ h1

/-- C14 (amended): `group_predicates` on a `UOper`, a `BinOper` other than `AND`, an
`InValues`, a `LikeExpr` or an `AggExpr` appends the whole node to exactly one list, chosen by
the number `n` of distinct range-table indices collected from the children it consults (the
operand of a `UOper`, both operands of a `BinOper`, the `arg` child alone of an `InValues`, a
`LikeExpr` or an `AggExpr`): the constant list when `n = 0`, the scan list when `n = 1`, the
join list when `n ≥ 2`. -/
theorem group_predicates_classified_node (e : Expr) (lists : PredicateLists)
    (h : e.is_classified_node = true) :
    e.group_predicates lists
      = push_by_count e (Expr.collect_rte_idx_list e.consulted_children ∅).card lists := by
  cases e with
  | BinOper t op q l r =>
    have hop : op ≠ .kAND := by simpa [Expr.is_classified_node] using h
    simp [Expr.group_predicates, hop, push_by_rte_count_eq, Expr.consulted_children,
      Expr.collect_rte_idx_list]
  | UOper t op o =>
    simp [Expr.group_predicates, push_by_rte_count_eq, Expr.consulted_children,
      Expr.collect_rte_idx_list]
  | InValues a l =>
    simp [Expr.group_predicates, push_by_rte_count_eq, Expr.consulted_children,
      Expr.collect_rte_idx_list]
  | LikeExpr a l esc =>
    simp [Expr.group_predicates, push_by_rte_count_eq, Expr.consulted_children,
      Expr.collect_rte_idx_list]
  | AggExpr t g a d i =>
    simp [Expr.group_predicates, push_by_rte_count_eq, Expr.consulted_children,
      Expr.collect_rte_idx_list]
  | _ => simp [Expr.is_classified_node] at h

/-- Witness for `group_predicates_classified_node`: `t1.a = t2.b OR t1.c > 5` is appended as a
whole to the join list. -/
theorem group_predicates_classified_node_witness :
    Expr.group_predicates
        (.BinOper boolean_type .kOR .kONE (comparison .kEQ (int_column 1 1 0) (int_column 2 2 1))
          (comparison .kGT (int_column 1 3 0) (int_constant 5)))
        PredicateLists.empty
      = push_by_count
          (.BinOper boolean_type .kOR .kONE
            (comparison .kEQ (int_column 1 1 0) (int_column 2 2 1))
            (comparison .kGT (int_column 1 3 0) (int_constant 5)))
          2 PredicateLists.empty :=
  group_predicates_classified_node
    (.BinOper boolean_type .kOR .kONE (comparison .kEQ (int_column 1 1 0) (int_column 2 2 1))
      (comparison .kGT (int_column 1 3 0) (int_constant 5)))
    PredicateLists.empty rfl

/-- For a `UOper`, a `BinOper` and an `AggExpr` the children consulted are all the children, so
the count is that of the `ColumnVar` leaves of the whole node. -/
theorem consulted_children_all (e : Expr) :
    (∀ t op o, e = .UOper t op o →
      Expr.collect_rte_idx_list e.consulted_children ∅ = e.collect_rte_idx ∅)
    ∧ (∀ t op q l r, e = .BinOper t op q l r →
      Expr.collect_rte_idx_list e.consulted_children ∅ = e.collect_rte_idx ∅)
    ∧ (∀ t g a d i, e = .AggExpr t g a d i →
      Expr.collect_rte_idx_list e.consulted_children ∅ = e.collect_rte_idx ∅) := by
  refine ⟨?_, ?_, ?_⟩ <;> intros <;> subst_vars <;>
    simp [Expr.consulted_children, Expr.collect_rte_idx_list, Expr.collect_rte_idx]

/-! ## Theorems: simple-predicate normalization -/

/-- C15: `normalize_simple_predicate` on the `BinOper` `left op right` (string constants
holding terminated strings): when `op` is a comparison and the operands are a `ColumnVar` `c`
and a `Constant` `k` in that order, it returns a `BinOper` `c op k` with the same type and
qualifier, structurally equal to the input, and `rte_idx = c.rte_idx`; when they are `k` and
`c` in that order, it returns `c op' k` with `op'` the commuted operator and
`rte_idx = c.rte_idx`; in every other case it returns no expression and `rte_idx = -1`.  The
commuted operator exchanges `<` with `>` and `<=` with `>=` and keeps `=` and `<>`. -/
theorem normalize_simple_predicate_spec (type_info : SQLTypeInfo) (optype : SQLOps)
    (qualifier : SQLQualifier) (left_operand right_operand : Expr)
    (hl : left_operand.strings_terminated = true)
    (hr : right_operand.strings_terminated = true) :
    (∀ ct tid cid rte k, IS_COMPARISON optype = true →
      left_operand = .ColumnVar ct tid cid rte → right_operand = .Constant k →
      ∃ k2, BinOper.normalize_simple_predicate type_info optype qualifier left_operand
            right_operand
          = .ok (some (.BinOper type_info optype qualifier (.ColumnVar ct tid cid rte)
              (.Constant k2)), rte)
        ∧ Expr.structurally_equal
            (.BinOper type_info optype qualifier left_operand right_operand)
            (.BinOper type_info optype qualifier (.ColumnVar ct tid cid rte) (.Constant k2))
          = true)
    ∧ (∀ ct tid cid rte k, IS_COMPARISON optype = true →
      left_operand = .Constant k → right_operand = .ColumnVar ct tid cid rte →
      ∃ k2, BinOper.normalize_simple_predicate type_info optype qualifier left_operand
            right_operand
          = .ok (some (.BinOper type_info (COMMUTE_COMPARISON optype) qualifier
              (.ColumnVar ct tid cid rte) (.Constant k2)), rte)
        ∧ k.structurally_equal k2 = true)
    ∧ (¬ (IS_COMPARISON optype = true
          ∧ ((left_operand.is_column_var = true ∧ right_operand.is_constant = true)
            ∨ (left_operand.is_constant = true ∧ right_operand.is_column_var = true))) →
      BinOper.normalize_simple_predicate type_info optype qualifier left_operand right_operand
        = .ok (none, -1))
    ∧ (COMMUTE_COMPARISON .kLT = .kGT ∧ COMMUTE_COMPARISON .kGT = .kLT
      ∧ COMMUTE_COMPARISON .kLE = .kGE ∧ COMMUTE_COMPARISON .kGE = .kLE
      ∧ COMMUTE_COMPARISON .kEQ = .kEQ ∧ COMMUTE_COMPARISON .kNE = .kNE) := by
  refine ⟨?_, ?_, ?_, ⟨rfl, rfl, rfl, rfl, rfl, rfl⟩⟩
  · intro ct tid cid rte k hop hle hre
    subst hle hre
    simp only [Expr.strings_terminated] at hr
    obtain ⟨k2, hk2, heq⟩ := constant_deep_copy_structurally_equal k hr
    refine ⟨k2, ?_, ?_⟩
    · simp [BinOper.normalize_simple_predicate, hop, Expr.deep_copy, hk2]
    · simp [Expr.structurally_equal, heq]
  · intro ct tid cid rte k hop hle hre
    subst hle hre
    simp only [Expr.strings_terminated] at hl
    obtain ⟨k2, hk2, heq⟩ := constant_deep_copy_structurally_equal k hl
    refine ⟨k2, ?_, heq⟩
    simp [BinOper.normalize_simple_predicate, hop, Expr.deep_copy, hk2]
  · intro hno
    unfold BinOper.normalize_simple_predicate
    cases hop : IS_COMPARISON optype
    · simp
    · simp only [hop, true_and] at hno
      cases left_operand <;> cases right_operand <;>
        simp_all [Expr.is_column_var, Expr.is_constant]

/-- Witness for `normalize_simple_predicate_spec`: `5 < t1.a` is normalized to `t1.a > 5` with
`rte_idx = 0`. -/
theorem normalize_simple_predicate_spec_witness :
    ∃ k2,
      BinOper.normalize_simple_predicate boolean_type .kLT .kONE (int_constant 5)
          (int_column 1 1 0)
        = .ok (some (.BinOper boolean_type (COMMUTE_COMPARISON .kLT) .kONE
            (.ColumnVar ⟨.kINT, 0, 0⟩ 1 1 0) (.Constant k2)), 0)
      ∧ Constant.structurally_equal ⟨⟨.kINT, 0, 0⟩, false, Datum.of_int 5⟩ k2 = true :=
  (normalize_simple_predicate_spec boolean_type .kLT .kONE (int_constant 5)
    (int_column 1 1 0) rfl rfl).2.1 ⟨.kINT, 0, 0⟩ 1 1 0 _ rfl rfl rfl

/-! ## Theorems: target-list rewriting -/

/-- C16 (evaluation at the failing input): the column `t1.a` rewritten against the target list
`[t1.a + 1, t1.a]`: at the first entry, which is neither an `AggExpr` nor a `ColumnVar`,
`dynamic_cast` returns null and the accessor call dereferences it; the matching second entry
is never reached. -/
theorem rewrite_with_targetlist_composite_entry (var_is_column_var : Bool) :
    ColumnVar.rewrite_with_targetlist var_is_column_var 1 1
        [⟨"a_plus_1",
          .BinOper ⟨.kINT, 0, 0⟩ .kPLUS .kONE (int_column 1 1 0) (int_constant 1)⟩,
         ⟨"a", int_column 1 1 0⟩]
      = .error .null_dereference := by
  rfl

/-- On a target list whose entries are `ColumnVar` and `AggExpr` nodes only,
`rewrite_with_targetlist` returns a copy of the expression of the first entry that is a
`ColumnVar` with the receiver's `table_id` and `column_id`, and throws when there is none. -/
theorem rewrite_with_targetlist_columns (var_is_column_var : Bool) (table_id column_id : Int)
    (tlist : List TargetEntry)
    (h : ∀ tle ∈ tlist, tle.expr.is_column_var = true ∨ tle.expr.is_agg_expr = true) :
    ColumnVar.rewrite_with_targetlist var_is_column_var table_id column_id tlist
      = match tlist.find? (fun tle => tle.expr.is_column table_id column_id) with
        | some tle => .ok tle.expr
        | none => .error column_not_in_targetlist := by
  induction tlist with
  | nil => rfl
  | cons tle rest ih =>
    have hrest := ih (fun x hx => h x (List.mem_cons_of_mem _ hx))
    have hhead := h tle (List.mem_cons_self _ _)
    obtain ⟨name, e⟩ := tle
    cases e with
    | ColumnVar t tid cid rte =>
      by_cases hm : table_id = tid ∧ column_id = cid
      · simp [ColumnVar.rewrite_with_targetlist, Expr.is_column, hm, Expr.deep_copy]
      · simp only [ColumnVar.rewrite_with_targetlist, hm, if_false, hrest]
        simp [List.find?, Expr.is_column, hm]
    | AggExpr t g a d i =>
      simp only [ColumnVar.rewrite_with_targetlist, hrest]
      simp [List.find?, Expr.is_column]
    | _ => simp [Expr.is_column_var, Expr.is_agg_expr] at hhead

/-- Witness for `rewrite_with_targetlist_columns`: against `[COUNT(t1.b), t1.a]` the column
`t1.a` is rewritten to a copy of the second entry's expression. -/
theorem rewrite_with_targetlist_columns_witness :
    ColumnVar.rewrite_with_targetlist false 1 1
        [⟨"n", .AggExpr ⟨.kBIGINT, 0, 0⟩ .kCOUNT (int_column 1 2 0) false 0⟩,
         ⟨"a", int_column 1 1 0⟩]
      = .ok (int_column 1 1 0) :=
  rewrite_with_targetlist_columns false 1 1
    [⟨"n", .AggExpr ⟨.kBIGINT, 0, 0⟩ .kCOUNT (int_column 1 2 0) false 0⟩,
     ⟨"a", int_column 1 1 0⟩]
    (by
      intro tle htle
      simp only [List.mem_cons, List.mem_singleton, List.not_mem_nil, or_false] at htle
      rcases htle with rfl | rfl
      · exact Or.inr rfl
      · exact Or.inl rfl)

/-! ## Theorems: the GROUP BY check -/

/-- C17 (evaluation at the failing input): the column `t1.a` checked against the GROUP BY list
`[t1.a + 1, t1.a]`: at the first member, which is not a `ColumnVar`, `dynamic_cast` returns
null and the accessor call dereferences it; the check neither succeeds nor throws the group-by
violation. -/
theorem check_group_by_composite_member (var_is_column_var : Bool)
    (other : Expr → Option (List Expr) → Except ExprFault Unit) :
    Expr.check_group_by var_is_column_var other (int_column 1 1 0)
        (some [.BinOper ⟨.kINT, 0, 0⟩ .kPLUS .kONE (int_column 1 1 0) (int_constant 1),
               int_column 1 1 0])
      = .error .null_dereference
    ∧ Expr.check_group_by var_is_column_var other (int_column 1 1 0)
        (some [.BinOper ⟨.kINT, 0, 0⟩ .kPLUS .kONE (int_column 1 2 0) (int_constant 1)])
      = .error .null_dereference := by
  exact ⟨rfl, rfl⟩

/-- The loop of `ColumnVar::check_group_by` over a list of `ColumnVar` nodes succeeds when some
member has the receiver's `table_id` and `column_id`, and throws the group-by violation
otherwise. -/
theorem check_group_by_loop_columns (var_is_column_var : Bool) (table_id column_id : Int)
    (l : List Expr) (h : ∀ g ∈ l, g.is_column_var = true) :
    ColumnVar.check_group_by_loop var_is_column_var table_id column_id l
      = if l.any (fun g => g.is_column table_id column_id) = true then .ok ()
        else .error group_by_violation := by
  induction l with
  | nil => rfl
  | cons g rest ih =>
    have hrest := ih (fun x hx => h x (List.mem_cons_of_mem _ hx))
    have hhead := h g (List.mem_cons_self _ _)
    cases g with
    | ColumnVar t tid cid rte =>
      by_cases hm : table_id = tid ∧ column_id = cid
      · simp [ColumnVar.check_group_by_loop, Expr.is_column, hm]
      · simp only [ColumnVar.check_group_by_loop, hm, if_false, hrest]
        simp [Expr.is_column, hm]
    | _ => simp [Expr.is_column_var] at hhead

/-- On an expression built from `ColumnVar`, `UOper` and `BinOper` nodes and a GROUP BY list
that is absent, empty, or holds `ColumnVar` nodes only, `check_group_by` succeeds if and only if
every `ColumnVar` leaf has the `table_id` and `column_id` of some member of the list, and
throws the group-by violation otherwise. -/
theorem check_group_by_columns (var_is_column_var : Bool)
    (other : Expr → Option (List Expr) → Except ExprFault Unit) (e : Expr)
    (groupby : Option (List Expr)) (he : e.is_column_operator_tree = true)
    (hg : ∀ g ∈ groupby.getD [], g.is_column_var = true) :
    e.check_group_by var_is_column_var other groupby
      = if e.column_leaves.all
            (fun leaf => (groupby.getD []).any (fun g => g.is_column leaf.1 leaf.2)) = true
        then .ok () else .error group_by_violation := by
  induction e using Expr.rec (motive_2 := fun _ => True) (motive_3 := fun _ => True) with
  | ColumnVar t tid cid rte =>
    cases groupby with
    | none =>
      simp [Expr.check_group_by, ColumnVar.check_group_by, ColumnVar.check_group_by_loop,
        Expr.column_leaves, group_by_violation]
    | some l =>
      simp only [Expr.check_group_by, ColumnVar.check_group_by,
        check_group_by_loop_columns var_is_column_var tid cid l hg]
      simp [Expr.column_leaves]
  | UOper t op o ih =>
    simp only [Expr.is_column_operator_tree] at he
    simpa [Expr.check_group_by, Expr.column_leaves] using ih he
  | BinOper t op q l r ihl ihr =>
    simp only [Expr.is_column_operator_tree, Bool.and_eq_true] at he
    simp only [Expr.check_group_by, ihl he.1, ihr he.2, Expr.column_leaves, List.all_append]
    cases h1 : l.column_leaves.all
        (fun leaf => (groupby.getD []).any (fun g => g.is_column leaf.1 leaf.2))
    · simp
    · simp only [Bool.true_and, if_true]
  | nil => trivial
  | cons _ _ _ _ => trivial
  | none => trivial
  | some _ _ => trivial
  | _ => simp [Expr.is_column_operator_tree] at he

/-- Witness for `check_group_by_columns`: `t1.a + t1.b` passes the check against
`GROUP BY t1.b, t1.a`. -/
theorem check_group_by_columns_witness :
    Expr.check_group_by false (fun _ _ => .ok ())
        (.BinOper ⟨.kINT, 0, 0⟩ .kPLUS .kONE (int_column 1 1 0) (int_column 1 2 0))
        (some [int_column 1 2 0, int_column 1 1 0])
      = .ok () := by
  have h := check_group_by_columns false (fun _ _ => .ok ())
    (.BinOper ⟨.kINT, 0, 0⟩ .kPLUS .kONE (int_column 1 1 0) (int_column 1 2 0))
    (some [int_column 1 2 0, int_column 1 1 0]) rfl
    (by
      intro g hg
      simp only [Option.getD_some, List.mem_cons, List.mem_singleton, List.not_mem_nil,
        or_false] at hg
      rcases hg with rfl | rfl <;> rfl)
  rw [h]
  rfl

/-! ## Theorems: the range table -/

/-- The loop of `get_rte_idx`, started at number `i`: it answers `i` plus the position of the
first entry with the alias, and `-1` when no entry has it. -/
theorem get_rte_idx_loop_eq (name : String) (l : List RangeTblEntry) (i : Int) :
    get_rte_idx_loop name l i
      = if l.findIdx (fun rte => decide (rte.rangevar = name)) < l.length then
          i + (l.findIdx (fun rte => decide (rte.rangevar = name)) : Nat)
        else -1 := by
  induction l generalizing i with
  | nil => simp [get_rte_idx_loop]
  | cons rte rest ih =>
    by_cases h : rte.rangevar = name
    · simp [get_rte_idx_loop, List.findIdx_cons, h]
    · simp only [get_rte_idx_loop, h, if_false, ih, List.findIdx_cons, decide_False,
        cond_false, List.length_cons, Nat.add_lt_add_iff_right]
      split_ifs
      · push_cast
        ring
      · rfl

/-- Building a range table by successive `add_rte` calls from the empty query gives the list of
the entries added, in order. -/
theorem add_rte_builds (entries : List RangeTblEntry) :
    (entries.foldl Query.add_rte Query.empty).rangetable = entries := by
  have h : ∀ (q : Query) (l : List RangeTblEntry),
      (l.foldl Query.add_rte q).rangetable = q.rangetable ++ l := by
    intro q l
    induction l generalizing q with
    | nil => simp
    | cons e rest ih => simp [List.foldl, ih, Query.add_rte]
  simpa [Query.empty] using h Query.empty entries

/-- C19 (counterexample): after `add_rte` of an entry with alias "t" to a range table that
already holds an entry with alias "t", `get_rte_idx "t"` is 0, the position of the earlier
entry, and not 1, the position of the new one. -/
theorem get_rte_idx_of_added_duplicate_alias :
    ¬ (∀ (q : Query) (rte : RangeTblEntry),
        (q.add_rte rte).get_rte_idx rte.rangevar = q.rangetable.length) := by
  intro h
  have h1 := h (Query.empty.add_rte ⟨"t", ⟨1⟩, []⟩) ⟨"t", ⟨2⟩, []⟩
  revert h1
  decide

/-- C19 (amended): `get_rte_idx name` is `-1` if and only if no entry of the range table has
the alias `name`, and otherwise it is the 0-based position of the first entry with that alias;
`add_rte` on a range table of length `n` places the new entry at position `n` and leaves the
entries at the positions below `n`, and the `get_rte_idx` of every alias already present,
unchanged; the `get_rte_idx` of the new entry's alias is `n` when no earlier entry has that
alias. -/
theorem get_rte_idx_add_rte (q : Query) (rte : RangeTblEntry) (name : String) :
    (q.get_rte_idx name = -1 ↔ ∀ r ∈ q.rangetable, r.rangevar ≠ name)
    ∧ (q.get_rte_idx name ≠ -1 →
        ∃ (i : Nat) (r : RangeTblEntry), q.get_rte_idx name = i ∧ q.rangetable[i]? = some r
          ∧ r.rangevar = name
          ∧ ∀ (j : Nat) (s : RangeTblEntry), j < i → q.rangetable[j]? = some s →
              s.rangevar ≠ name)
    ∧ (q.add_rte rte).rangetable[q.rangetable.length]? = some rte
    ∧ (q.add_rte rte).rangetable.length = q.rangetable.length + 1
    ∧ (∀ j : Nat, j < q.rangetable.length →
        (q.add_rte rte).rangetable[j]? = q.rangetable[j]?)
    ∧ (q.get_rte_idx name ≠ -1 → (q.add_rte rte).get_rte_idx name = q.get_rte_idx name)
    ∧ ((∀ r ∈ q.rangetable, r.rangevar ≠ rte.rangevar) →
        (q.add_rte rte).get_rte_idx rte.rangevar = q.rangetable.length) := by
  have hmem : ∀ (l : List RangeTblEntry) (nm : String),
      l.findIdx (fun r => decide (r.rangevar = nm)) < l.length ↔ ∃ r ∈ l, r.rangevar = nm := by
    intro l nm
    rw [List.findIdx_lt_length]
    simp
  refine ⟨?_, ?_, ?_, ?_, ?_, ?_, ?_⟩
  · unfold Query.get_rte_idx
    rw [get_rte_idx_loop_eq]
    split_ifs with h
    · rw [hmem] at h
      obtain ⟨r, hr, hrn⟩ := h
      constructor
      · intro h0
        omega
      · intro hall
        exact absurd hrn (hall r hr)
    · rw [hmem] at h
      push_neg at h
      simpa using h
  · unfold Query.get_rte_idx
    rw [get_rte_idx_loop_eq]
    split_ifs with h
    · intro _
      refine ⟨_, q.rangetable[q.rangetable.findIdx (fun r => decide (r.rangevar = name))],
        by simp, List.getElem?_eq_getElem h, ?_, ?_⟩
      · have := @List.findIdx_getElem _ (fun r : RangeTblEntry => decide (r.rangevar = name))
          q.rangetable h
        simpa using this
      · intro j s hj hs
        have hjl : j < q.rangetable.length := by omega
        have := List.not_of_lt_findIdx hj
        rw [List.getElem?_eq_getElem hjl] at hs
        cases hs
        simpa using this
    · intro hne
      exact absurd rfl hne
  · simp [Query.add_rte]
  · simp [Query.add_rte]
  · intro j hj
    simp [Query.add_rte, List.getElem?_append_left hj]
  · unfold Query.get_rte_idx
    rw [get_rte_idx_loop_eq, get_rte_idx_loop_eq]
    split_ifs with h1 h2 h2
    · intro _
      simp only [Query.add_rte] at h2 ⊢
      rw [List.findIdx_append, if_pos h1]
    · intro _
      exfalso
      apply h2
      simp only [Query.add_rte, List.findIdx_append, if_pos h1, List.length_append]
      omega
    · intro hne
      exact absurd rfl hne
    · intro hne
      exact absurd rfl hne
  · intro hall
    unfold Query.get_rte_idx
    rw [get_rte_idx_loop_eq]
    have hnot : ¬ q.rangetable.findIdx (fun r => decide (r.rangevar = rte.rangevar))
        < q.rangetable.length := by
      rw [hmem]
      push_neg
      exact hall
    simp only [Query.add_rte, List.findIdx_append, if_neg hnot, List.findIdx_cons,
      List.length_append, List.length_singleton]
    simp

/-- Witness for `get_rte_idx_add_rte`: adding the alias "u" to the range table `[t]` puts it at
position 1, and `get_rte_idx "u"` is 1. -/
theorem get_rte_idx_add_rte_witness :
    Query.get_rte_idx ((Query.empty.add_rte ⟨"t", ⟨1⟩, []⟩).add_rte ⟨"u", ⟨2⟩, []⟩) "u"
      = ((1 : Nat) : Int) :=
  (get_rte_idx_add_rte (Query.empty.add_rte ⟨"t", ⟨1⟩, []⟩) ⟨"u", ⟨2⟩, []⟩ "u").2.2.2.2.2.2
    (by decide)

/-! ## Theorems: the column descriptor cache -/

/-- C20 (counterexample): with a catalog that answers the lookup of "A" with the descriptor of
the column named "a", the second of two calls `get_column_desc "A"` on an empty cache finds no
cached descriptor named "A" and appends the descriptor to the cache a second time. -/
theorem get_column_desc_repeated_call_may_append_again :
    ¬ (∀ (rte : RangeTblEntry) (catalog : Catalog) (name : String),
        (RangeTblEntry.get_column_desc (rte.get_column_desc catalog name).1 catalog name)
          = ((rte.get_column_desc catalog name).1, (rte.get_column_desc catalog name).2)) := by
  intro h
  have h1 := congrArg (fun r => r.1.column_descs.length)
    (h ⟨"t", ⟨1⟩, []⟩
      ⟨fun _ => [], fun _ _ => some ⟨1, 1, "a", ⟨.kINT, 0, 0⟩⟩⟩ "A")
  revert h1
  decide

/-- C20 (amended): `get_column_desc name` returns the first cached descriptor named `name` and
leaves the cache unchanged when there is one; otherwise it returns the catalog's answer,
appending it to the end of the cache when the catalog finds the column, and leaving the cache
unchanged and returning none when it does not; when the descriptor that the catalog returns for
`name` is named `name`, an immediately repeated call returns the same result and leaves the
cache as the first call left it. -/
theorem get_column_desc_spec (self : RangeTblEntry) (catalog : Catalog) (name : String) :
    (∀ before cd after, self.column_descs = before ++ cd :: after →
        (∀ x ∈ before, x.columnName ≠ name) → cd.columnName = name →
        self.get_column_desc catalog name = (self, some cd))
    ∧ ((∀ x ∈ self.column_descs, x.columnName ≠ name) →
        ∀ cd, catalog.getMetadataForColumn self.table_desc.tableId name = some cd →
        self.get_column_desc catalog name
          = ({ self with column_descs := self.column_descs ++ [cd] }, some cd))
    ∧ ((∀ x ∈ self.column_descs, x.columnName ≠ name) →
        catalog.getMetadataForColumn self.table_desc.tableId name = none →
        self.get_column_desc catalog name = (self, none))
    ∧ ((∀ cd, catalog.getMetadataForColumn self.table_desc.tableId name = some cd →
          cd.columnName = name) →
        RangeTblEntry.get_column_desc (self.get_column_desc catalog name).1 catalog name
          = ((self.get_column_desc catalog name).1, (self.get_column_desc catalog name).2)) := by
  have hfind_none : (∀ x ∈ self.column_descs, x.columnName ≠ name) →
      self.column_descs.find? (fun cd => decide (cd.columnName = name)) = none := by
    intro hall
    rw [List.find?_eq_none]
    intro x hx
    simpa using hall x hx
  have hfirst : ∀ before cd after, self.column_descs = before ++ cd :: after →
      (∀ x ∈ before, x.columnName ≠ name) → cd.columnName = name →
      self.column_descs.find? (fun cd => decide (cd.columnName = name)) = some cd := by
    intro before cd after hsplit hbefore hcd
    rw [List.find?_eq_some]
    refine ⟨by simpa using hcd, before, after, hsplit, ?_⟩
    intro a ha
    simpa using hbefore a ha
  refine ⟨?_, ?_, ?_, ?_⟩
  · intro before cd after hsplit hbefore hcd
    simp [RangeTblEntry.get_column_desc, hfirst before cd after hsplit hbefore hcd]
  · intro hall cd hcat
    simp [RangeTblEntry.get_column_desc, hfind_none hall, hcat]
  · intro hall hcat
    simp [RangeTblEntry.get_column_desc, hfind_none hall, hcat]
  · intro hname
    cases hf : self.column_descs.find? (fun cd => decide (cd.columnName = name)) with
    | some cd =>
      have h1 : self.get_column_desc catalog name = (self, some cd) := by
        simp [RangeTblEntry.get_column_desc, hf]
      rw [h1]
      exact h1
    | none =>
      cases hcat : catalog.getMetadataForColumn self.table_desc.tableId name with
      | none =>
        have h1 : self.get_column_desc catalog name = (self, none) := by
          simp [RangeTblEntry.get_column_desc, hf, hcat]
        rw [h1]
        exact h1
      | some cd =>
        have h1 : self.get_column_desc catalog name
            = ({ self with column_descs := self.column_descs ++ [cd] }, some cd) := by
          simp [RangeTblEntry.get_column_desc, hf, hcat]
        rw [h1]
        have hcd := hname cd hcat
        simp [RangeTblEntry.get_column_desc, List.find?_append, hf, hcd]

/-- Witness for `get_column_desc_spec`: with a catalog that knows the column "a", two calls in
a row on an empty cache return the same descriptor and leave a cache of one descriptor. -/
theorem get_column_desc_spec_witness :
    RangeTblEntry.get_column_desc
        ((RangeTblEntry.get_column_desc ⟨"t", ⟨1⟩, []⟩
          ⟨fun _ => [], fun _ n => if n = "a" then some ⟨1, 1, "a", ⟨.kINT, 0, 0⟩⟩ else none⟩
          "a").1)
        ⟨fun _ => [], fun _ n => if n = "a" then some ⟨1, 1, "a", ⟨.kINT, 0, 0⟩⟩ else none⟩ "a"
      = ((RangeTblEntry.get_column_desc ⟨"t", ⟨1⟩, []⟩
          ⟨fun _ => [], fun _ n => if n = "a" then some ⟨1, 1, "a", ⟨.kINT, 0, 0⟩⟩ else none⟩
          "a").1,
         (RangeTblEntry.get_column_desc ⟨"t", ⟨1⟩, []⟩
          ⟨fun _ => [], fun _ n => if n = "a" then some ⟨1, 1, "a", ⟨.kINT, 0, 0⟩⟩ else none⟩
          "a").2) :=
  (get_column_desc_spec ⟨"t", ⟨1⟩, []⟩
    ⟨fun _ => [], fun _ n => if n = "a" then some ⟨1, 1, "a", ⟨.kINT, 0, 0⟩⟩ else none⟩
    "a").2.2.2
    (by
      intro cd hcd
      simp only [if_true] at hcd
      cases hcd
      rfl)

/-! ## Theorems: the descriptor invariant of the common type -/

/-- C21 (evaluation at the failing inputs): SMALLINT with NUMERIC(19,15) gives NUMERIC(20,15),
and NUMERIC(19,0) with DECIMAL(19,19) gives NUMERIC(38,19): both operands satisfy
`0 ≤ scale ≤ dimension ≤ 19` and the fixed-point result has a dimension above 19. -/
theorem common_numeric_type_dimension_above_19 (dflt : SQLTypeInfo) :
    (common_numeric_type dflt ⟨.kSMALLINT, 0, 0⟩ ⟨.kNUMERIC, 19, 15⟩ = .ok ⟨.kNUMERIC, 20, 15⟩
      ∧ descriptor_ok ⟨.kNUMERIC, 19, 15⟩ ∧ ¬ descriptor_ok ⟨.kNUMERIC, 20, 15⟩)
    ∧ (common_numeric_type dflt ⟨.kNUMERIC, 19, 0⟩ ⟨.kDECIMAL, 19, 19⟩
        = .ok ⟨.kNUMERIC, 38, 19⟩
      ∧ descriptor_ok ⟨.kNUMERIC, 19, 0⟩ ∧ descriptor_ok ⟨.kDECIMAL, 19, 19⟩
      ∧ ¬ descriptor_ok ⟨.kNUMERIC, 38, 19⟩) := by
  refine ⟨⟨rfl, ?_, ?_⟩, ⟨rfl, ?_, ?_, ?_⟩⟩ <;>
    simp [descriptor_ok, is_fixed_kind]

/-- Where the invariant does hold: for numeric operands whose fixed-point members satisfy
`0 ≤ scale ≤ dimension ≤ 19` and whose other members carry dimension 0 and scale 0, a
fixed-point common type has `0 ≤ scale ≤ dimension`, and its dimension is at most 19 except in
the two branches without a cap: SMALLINT first with a fixed-point type of scale 15 or more,
where it is `5 + scale`, and NUMERIC with DECIMAL, where it is
`max (d1 - s1) (d2 - s2) + max s1 s2`. -/
theorem common_numeric_type_result_descriptor (dflt a b r : SQLTypeInfo)
    (ha : IS_NUMBER a.type = true) (hb : IS_NUMBER b.type = true)
    (hda : descriptor_ok a) (hdb : descriptor_ok b)
    (hpa : plain_descriptor a) (hpb : plain_descriptor b)
    (hr : common_numeric_type dflt a b = .ok r) (hfix : is_fixed_kind r.type = true) :
    0 ≤ r.scale ∧ r.scale ≤ r.dimension
    ∧ (r.dimension ≤ 19
      ∨ (a.type = .kSMALLINT ∧ 15 ≤ b.scale ∧ r.dimension = 5 + b.scale)
      ∨ (is_fixed_kind a.type = true ∧ is_fixed_kind b.type = true ∧ a.type ≠ b.type
          ∧ r.dimension
              = max (a.dimension - a.scale) (b.dimension - b.scale) + max a.scale b.scale)) := by
  obtain ⟨ta, da, sa⟩ := a
  obtain ⟨tb, db, sb⟩ := b
  obtain ⟨tr, dr, sr⟩ := r
  simp only [descriptor_ok, plain_descriptor] at hda hdb hpa hpb
  simp only at ha hb hfix
  cases ta <;> simp only [IS_NUMBER, Bool.false_eq_true] at ha <;>
    cases tb <;> simp only [IS_NUMBER, Bool.false_eq_true] at hb <;>
    simp [common_numeric_type, IS_NUMBER, toInt32] at hr <;>
    obtain ⟨rfl, rfl, rfl⟩ := hr <;>
    simp only [is_fixed_kind, Bool.false_eq_true] at hfix <;>
    simp [is_fixed_kind] at hda hdb hpa hpb ⊢ <;>
    omega

/-- Witness for `common_numeric_type_result_descriptor`: INT with NUMERIC(10,4) gives
NUMERIC(14,4), with `0 ≤ 4 ≤ 14 ≤ 19`. -/
theorem common_numeric_type_result_descriptor_witness :
    (0 : Int) ≤ 4 ∧ (4 : Int) ≤ 14
    ∧ ((14 : Int) ≤ 19
      ∨ (SQLTypes.kINT = SQLTypes.kSMALLINT ∧ (15 : Int) ≤ 4 ∧ (14 : Int) = 5 + 4)
      ∨ (is_fixed_kind SQLTypes.kINT = true ∧ is_fixed_kind SQLTypes.kNUMERIC = true
          ∧ SQLTypes.kINT ≠ SQLTypes.kNUMERIC
          ∧ (14 : Int) = max ((0 : Int) - 0) (10 - 4) + max 0 4)) :=
  common_numeric_type_result_descriptor ⟨.kBOOLEAN, 0, 0⟩ ⟨.kINT, 0, 0⟩ ⟨.kNUMERIC, 10, 4⟩
    ⟨.kNUMERIC, 14, 4⟩ rfl rfl (by simp [descriptor_ok, is_fixed_kind])
    (by simp [descriptor_ok]) (by simp [plain_descriptor])
    (by simp [plain_descriptor, is_fixed_kind]) (by decide) rfl

end Analyzer
